import Mathlib

/-!
# Verification of the context-compaction pipeline in `App/services/LLm_service.py`

This file shallowly embeds the parts of `LLMService` that the specification
talks about: the response cache, the per-category summarizers, the
mention-prioritization reordering, the chunked processing of large player
lists, and the budget enforcement in `generate_response`.

Python values flowing through the pipeline are modelled by the inductive
type `Val` (None, bool, int, str, list, dict).  Python strings are modelled
as `String` (operated on through their underlying `List Char`), Python dicts
as insertion-ordered association lists with unique keys (which is what the
Python runtime produces).  Python exceptions are modelled with
`Except String`: primitive operations that raise in Python (`.get` on a
non-dict, iteration over a non-iterable, slicing a non-sequence, ...) return
`.error msg`; `try/except` blocks in the source become an explicit `match`
on the `Except` value.  Functions whose whole body sits inside a
`try/except` in the source therefore become total Lean functions; functions
that can let an exception escape (for example `_summarize_boxscore`, which
has no `try` at all) return `Except String Val`.
-/

set_option maxHeartbeats 1000000
set_option maxRecDepth 4000

namespace LLm

/-- Model of a Python value as it appears in the data bundles handled by
`LLm_service.py`: `None`, booleans, integers, strings, lists and
(insertion-ordered) dicts with string keys. -/
inductive Val where
  | none : Val
  | bool (b : Bool) : Val
  | int (n : Int) : Val
  | str (s : String) : Val
  | list (xs : List Val) : Val
  | dict (kvs : List (String × Val)) : Val
deriving Inhabited

mutual

/-- Decidable equality for `Val` (needed so that concrete runs of the
pipeline can be checked with `decide`). -/
def Val.beq : Val → Val → Bool
  | .none, .none => true
  | .bool a, .bool b => a == b
  | .int a, .int b => a == b
  | .str a, .str b => a == b
  | .list a, .list b => Val.beqList a b
  | .dict a, .dict b => Val.beqKvs a b
  | _, _ => false

def Val.beqList : List Val → List Val → Bool
  | [], [] => true
  | a :: as, b :: bs => Val.beq a b && Val.beqList as bs
  | _, _ => false

def Val.beqKvs : List (String × Val) → List (String × Val) → Bool
  | [], [] => true
  | (k₁, v₁) :: as, (k₂, v₂) :: bs => k₁ == k₂ && Val.beq v₁ v₂ && Val.beqKvs as bs
  | _, _ => false

end

mutual

theorem Val.beq_eq : ∀ a b : Val, Val.beq a b = true ↔ a = b
  | .none, b => by cases b <;> simp [Val.beq]
  | .bool x, b => by cases b <;> simp [Val.beq]
  | .int x, b => by cases b <;> simp [Val.beq]
  | .str x, b => by cases b <;> simp [Val.beq]
  | .list xs, b => by
      cases b <;> simp [Val.beq]
      exact Val.beqList_eq xs _
  | .dict kvs, b => by
      cases b <;> simp [Val.beq]
      exact Val.beqKvs_eq kvs _

theorem Val.beqList_eq : ∀ a b : List Val, Val.beqList a b = true ↔ a = b
  | [], b => by cases b <;> simp [Val.beqList]
  | x :: xs, b => by
      cases b with
      | nil => simp [Val.beqList]
      | cons y ys =>
          simp only [Val.beqList, Bool.and_eq_true, List.cons.injEq]
          exact and_congr (Val.beq_eq x y) (Val.beqList_eq xs ys)

theorem Val.beqKvs_eq : ∀ a b : List (String × Val), Val.beqKvs a b = true ↔ a = b
  | [], b => by cases b <;> simp [Val.beqKvs]
  | (k, v) :: xs, b => by
      cases b with
      | nil => simp [Val.beqKvs]
      | cons y ys =>
          obtain ⟨k₂, v₂⟩ := y
          simp only [Val.beqKvs, Bool.and_eq_true, List.cons.injEq, Prod.mk.injEq, beq_iff_eq]
          rw [Val.beq_eq v v₂, Val.beqKvs_eq xs ys, and_assoc]

end

instance : DecidableEq Val := fun a b =>
  decidable_of_iff (Val.beq a b = true) (Val.beq_eq a b)

/-- Python truthiness of a `Val` (`if not data: ...`): `None`, `False`, `0`,
`""`, `[]` and `{}` are falsy, everything else is truthy. -/
def Val.truthy : Val → Bool
  | .none => false
  | .bool b => b
  | .int n => n != 0
  | .str s => s.length != 0
  | .list xs => !xs.isEmpty
  | .dict kvs => !kvs.isEmpty

/-- The Python type name of a `Val`, used to build exception messages that
mirror CPython's (`'list' object has no attribute 'get'` and the like). -/
def Val.typeName : Val → String
  | .none => "NoneType"
  | .bool _ => "bool"
  | .int _ => "int"
  | .str _ => "str"
  | .list _ => "list"
  | .dict _ => "dict"

/-- First binding of key `k` in an association list. -/
def getKV (kvs : List (String × Val)) (k : String) : Option Val :=
  match kvs with
  | [] => Option.none
  | (k₁, v) :: rest => if k₁ = k then some v else getKV rest k

/-- `d[k] = v` on a Python dict: replace the value in place if the key is
present, otherwise append the binding at the end (insertion order). -/
def setKV (kvs : List (String × Val)) (k : String) (v : Val) : List (String × Val) :=
  match kvs with
  | [] => [(k, v)]
  | (k₁, v₁) :: rest =>
      if k₁ = k then (k₁, v) :: rest else (k₁, v₁) :: setKV rest k v

/-- `x.get(k, default)`: total on dicts, raises `AttributeError` on anything
else (mirroring `'int' object has no attribute 'get'`). -/
def pyGet (v : Val) (k : String) (default : Val) : Except String Val :=
  match v with
  | .dict kvs => .ok ((getKV kvs k).getD default)
  | _ => .error ("\x27" ++ v.typeName ++ "\x27 object has no attribute \x27get\x27")

/-- `x[k]` subscription with a string key: `KeyError` if absent, `TypeError`
if `x` is not a dict. -/
def pyGetItem (v : Val) (k : String) : Except String Val :=
  match v with
  | .dict kvs =>
      match getKV kvs k with
      | some r => .ok r
      | Option.none => .error ("KeyError: \x27" ++ k ++ "\x27")
  | _ => .error ("\x27" ++ v.typeName ++ "\x27 object is not subscriptable")

/-- `x.items()`: only dicts have it. -/
def pyItems (v : Val) : Except String (List (String × Val)) :=
  match v with
  | .dict kvs => .ok kvs
  | _ => .error ("\x27" ++ v.typeName ++ "\x27 object has no attribute \x27items\x27")

/-- `k in x` for a string `k`: key test on dicts, element test on lists,
substring test on strings, `TypeError` otherwise. -/
def strInfixOf (needle hay : List Char) : Bool :=
  if needle.isPrefixOf hay then true
  else
    match hay with
    | [] => false
    | _ :: t => strInfixOf needle t

/-- Substring test on the `String` model of Python strings. -/
def pyStrIn (needle hay : String) : Bool :=
  strInfixOf needle.data hay.data

def pyInStr (k : String) (v : Val) : Except String Bool :=
  match v with
  | .dict kvs => .ok (kvs.any (fun p => p.1 = k))
  | .list xs => .ok (xs.any (fun x => x = Val.str k))
  | .str s => .ok (pyStrIn k s)
  | _ => .error ("argument of type \x27" ++ v.typeName ++ "\x27 is not iterable")

/-- `len(x)`: sequences and dicts only. -/
def pyLen (v : Val) : Except String Nat :=
  match v with
  | .str s => .ok s.length
  | .list xs => .ok xs.length
  | .dict kvs => .ok kvs.length
  | _ => .error ("object of type \x27" ++ v.typeName ++ "\x27 has no len()")

/-- Python slice-to-the-front `xs[:k]` on a plain list, with Python's
semantics for a negative bound (`xs[:-n]` drops the last `n` elements). -/
def pySliceTo (xs : List α) (k : Int) : List α :=
  if 0 ≤ k then xs.take k.toNat else xs.take ((xs.length : Int) + k).toNat

/-- `x[:k]` on a `Val`: lists and strings slice, everything else raises
`TypeError` (`unhashable type: 'slice'` for dicts in CPython; the message is
irrelevant to the properties proved here). -/
def pySliceVal (v : Val) (k : Int) : Except String Val :=
  match v with
  | .list xs => .ok (.list (pySliceTo xs k))
  | .str s => .ok (.str ⟨pySliceTo s.data k⟩)
  | _ => .error ("\x27" ++ v.typeName ++ "\x27 object is not subscriptable")

/-- `for x in v`: lists yield their elements, dicts their keys, strings
their characters; other values raise `TypeError`. -/
def pyIter (v : Val) : Except String (List Val) :=
  match v with
  | .list xs => .ok xs
  | .dict kvs => .ok (kvs.map (fun p => Val.str p.1))
  | .str s => .ok (s.data.map (fun c => Val.str ⟨[c]⟩))
  | _ => .error ("\x27" ++ v.typeName ++ "\x27 object is not iterable")

/-- `s.lower()` on a `Val`: strings only. -/
def pyLowerStr (s : String) : String := ⟨s.data.map Char.toLower⟩

def pyLower (v : Val) : Except String String :=
  match v with
  | .str s => .ok (pyLowerStr s)
  | _ => .error ("\x27" ++ v.typeName ++ "\x27 object has no attribute \x27lower\x27")

/-- Whitespace `str.split()` (split on runs of whitespace, no empty parts),
written on the underlying character list. -/
def wsSplitAux : List Char → List Char → List String
  | [], acc => if acc.isEmpty then [] else [⟨acc.reverse⟩]
  | c :: cs, acc =>
      if c.isWhitespace then
        if acc.isEmpty then wsSplitAux cs [] else (⟨acc.reverse⟩ : String) :: wsSplitAux cs []
      else wsSplitAux cs (c :: acc)

def pySplitWs (s : String) : List String := wsSplitAux s.data []

/-- `str(x)` as used by the debug statements (its exact rendering is never
relied upon by any property below; only totality matters). -/
def pyStrOf : Val → String
  | .none => "None"
  | .bool b => if b then "True" else "False"
  | .int n => toString n
  | .str s => s
  | .list _ => "[...]"
  | .dict _ => "{...}"

/-! ## `json.dumps(..., indent=2)`

`generate_response` serializes the compacted summary with
`json.dumps(summarized_data, indent=2)`.  The embedding below reproduces
CPython's output exactly for the `Val` fragment: two-space indentation,
`", "`-free item separators (a comma followed by a newline), `": "` after
keys, `ensure_ascii` escaping of control and non-ASCII characters. -/

def hexDigit (n : Nat) : Char :=
  if n < 10 then Char.ofNat ('0'.toNat + n) else Char.ofNat ('a'.toNat + n - 10)

def uEscape (n : Nat) : List Char :=
  ['\\', 'u', hexDigit (n / 4096 % 16), hexDigit (n / 256 % 16),
   hexDigit (n / 16 % 16), hexDigit (n % 16)]

/-- JSON escaping of one character, as `json.dumps` does with the default
`ensure_ascii=True` (characters above `0xffff` become surrogate pairs). -/
def escChar (c : Char) : List Char :=
  if c = '"' then ['\\', '"']
  else if c = '\\' then ['\\', '\\']
  else if c = '\n' then ['\\', 'n']
  else if c = '\t' then ['\\', 't']
  else if c = '\r' then ['\\', 'r']
  else if c = Char.ofNat 8 then ['\\', 'b']
  else if c = Char.ofNat 12 then ['\\', 'f']
  else if c.toNat < 0x20 ∨ 0x7e < c.toNat then
    if c.toNat < 0x10000 then uEscape c.toNat
    else uEscape (0xd800 + (c.toNat - 0x10000) / 1024) ++
         uEscape (0xdc00 + (c.toNat - 0x10000) % 1024)
  else [c]

def escString (s : List Char) : List Char := s.flatMap escChar

def quoteStr (s : String) : List Char := '"' :: (escString s.data ++ ['"'])

def indentChars (L : Nat) : List Char := List.replicate (2 * L) ' '

mutual

/-- `json.dumps(v, indent=2)` at nesting level `L`, producing the character
sequence of the Python string. -/
def dumpsAt : Nat → Val → List Char
  | _, .none => "null".data
  | _, .bool b => if b then "true".data else "false".data
  | _, .int n => (toString n).data
  | _, .str s => quoteStr s
  | _, .list [] => "[]".data
  | L, .list (x :: xs) =>
      '[' :: '\n' :: (dumpsItems (L + 1) (x :: xs) ++ '\n' :: (indentChars L ++ [']']))
  | _, .dict [] => "{}".data
  | L, .dict (kv :: kvs) =>
      '{' :: '\n' :: (dumpsKvs (L + 1) (kv :: kvs) ++ '\n' :: (indentChars L ++ ['}']))

def dumpsItems : Nat → List Val → List Char
  | _, [] => []
  | L, [x] => indentChars L ++ dumpsAt L x
  | L, x :: y :: xs =>
      indentChars L ++ (dumpsAt L x ++ ',' :: '\n' :: dumpsItems L (y :: xs))

def dumpsKvs : Nat → List (String × Val) → List Char
  | _, [] => []
  | L, [(k, v)] => indentChars L ++ (quoteStr k ++ ':' :: ' ' :: dumpsAt L v)
  | L, (k, v) :: kv :: kvs =>
      indentChars L ++
        (quoteStr k ++ ':' :: ' ' :: (dumpsAt L v ++ ',' :: '\n' :: dumpsKvs L (kv :: kvs)))

end

/-- `json.dumps(v, indent=2)` (top level). -/
def dumps (v : Val) : List Char := dumpsAt 0 v

/-! ## The response cache

`llm_cache` is a module-level dict mapping the SHA-256 fingerprint of
`query + str(context_data)` to `(creation time, response)`; `generate_response`
reads it before doing any work and writes it after a successful generation
(lines 31-38 and 237-239 of the source).  The store is modelled as an
insertion-ordered association list keyed by the fingerprint; time is an
integer number of seconds. -/

def LLM_CACHE_TTL : Int := 60 * 10  -- 10 minutes

abbrev LlmCache := List (String × (Int × String))

/-- `llm_cache[cache_key] = (now, llm_response)` (line 238). -/
def cacheStore : LlmCache → String → Int → String → LlmCache
  | [], key, now, resp => [(key, (now, resp))]
  | (k, e) :: rest, key, now, resp =>
      if k = key then (k, (now, resp)) :: rest else (k, e) :: cacheStore rest key now resp

def cacheFind : LlmCache → String → Option (Int × String)
  | [], _ => Option.none
  | (k, e) :: rest, key => if k = key then some e else cacheFind rest key

/-- The cache-read logic of lines 35-38: on a hit whose age is below the
TTL the cached response is returned; otherwise the function falls through
(a miss, modelled as `none`). -/
def cacheRead (c : LlmCache) (key : String) (now : Int) : Option String :=
  match cacheFind c key with
  | some (t, r) => if now - t < LLM_CACHE_TTL then some r else Option.none
  | Option.none => Option.none

/-! ## Helper lemmas for termination of the recursive summarizers -/

theorem getKV_mem {kvs : List (String × Val)} {k : String} {v : Val}
    (h : getKV kvs k = some v) : (k, v) ∈ kvs := by
  induction kvs with
  | nil => simp [getKV] at h
  | cons p rest ih =>
      obtain ⟨k₁, v₁⟩ := p
      by_cases hk : k₁ = k
      · subst hk
        simp [getKV] at h
        simp [h]
      · simp [getKV, hk] at h
        exact List.mem_cons_of_mem _ (ih h)

theorem sizeOf_lt_dict_of_getKV {kvs : List (String × Val)} {k : String} {v : Val}
    (h : getKV kvs k = some v) : sizeOf v < sizeOf (Val.dict kvs) := by
  have hmem := getKV_mem h
  have := List.sizeOf_lt_sizeOf_of_mem hmem
  simp only [Prod.mk.sizeOf_spec] at this
  simp only [Val.dict.sizeOf_spec]
  omega

theorem sizeOf_le_of_sublist {l₁ l₂ : List Val} (h : l₁.Sublist l₂) :
    sizeOf l₁ ≤ sizeOf l₂ := by
  induction h with
  | slnil => simp
  | cons a _ ih => simp only [List.cons.sizeOf_spec]; omega
  | cons₂ a _ ih => simp only [List.cons.sizeOf_spec]; omega

theorem sublist_take_append {l s : List Val} (m k : Nat) (h1 : m ≤ k)
    (h2 : s.Sublist (l.drop k)) : (l.take m ++ s).Sublist l := by
  conv_rhs => rw [← List.take_append_drop k l]
  refine List.Sublist.append ?_ h2
  have : l.take m = (l.take k).take m := by
    rw [List.take_take, Nat.min_eq_left h1]
  rw [this]
  exact List.take_sublist _ _

theorem tiered_sublist_all (l : List Val) :
    (l.take 15 ++ ((l.drop 50).take 10 ++ (l.drop 150).take 5)).Sublist l := by
  apply sublist_take_append 15 50 (by omega)
  have h150 : l.drop 150 = (l.drop 50).drop 100 := by
    rw [List.drop_drop]
  rw [h150]
  apply sublist_take_append 10 100 (by omega)
  exact List.take_sublist _ _

theorem tiered_sublist (l : List Val) :
    (l.take 15 ++ ((if 60 < l.length then (l.drop 50).take 10 else []) ++
      (if 155 < l.length then (l.drop 150).take 5 else []))).Sublist l := by
  refine List.Sublist.trans (List.Sublist.append (List.Sublist.refl _)
    (List.Sublist.append ?_ ?_)) (tiered_sublist_all l)
  · split
    · exact List.Sublist.refl _
    · exact List.nil_sublist _
  · split
    · exact List.Sublist.refl _
    · exact List.nil_sublist _

/-! ## `_summarize_fantasy_rankings` and the chunked large-list processing -/

def hasKey (kvs : List (String × Val)) (k : String) : Bool :=
  kvs.any (fun p => p.1 = k)

/-- `d.get(k, default)` when `d` is already known to be a dict (total). -/
def dGetD (kvs : List (String × Val)) (k : String) (d : Val) : Val :=
  (getKV kvs k).getD d

def isDictB : Val → Bool
  | .dict _ => true
  | _ => false

def isListOrDictB : Val → Bool
  | .list _ => true
  | .dict _ => true
  | _ => false

/-- The per-player projection built by the list branch of
`_summarize_fantasy_rankings` (lines 917-951) and, with identical code, by
each chunk of `_process_large_player_list_chunked` (lines 1616-1649). -/
def mkPlayerSummary (kvs : List (String × Val)) : Val :=
  let base : List (String × Val) :=
    [("id", dGetD kvs "player_id" (.str "")),
     ("name", dGetD kvs "display_name" (dGetD kvs "name" (.str ""))),
     ("team", dGetD kvs "team" (.str "")),
     ("position", dGetD kvs "position" (.str "")),
     ("rank", dGetD kvs "rank" (dGetD kvs "position_rank" (.int 0))),
     ("bye_week", dGetD kvs "bye_week" (.str ""))]
  let s1 := if hasKey kvs "standard_points" then
      setKV base "projected_points" (.dict
        [("standard", dGetD kvs "standard_points" (.int 0)),
         ("ppr", dGetD kvs "ppr_points" (.int 0)),
         ("half_ppr", dGetD kvs "half_ppr_points" (.int 0))])
    else base
  let s2 := if hasKey kvs "proj_pts" then
      setKV s1 "projected_points" (dGetD kvs "proj_pts" (.int 0)) else s1
  let s3 := if hasKey kvs "adp" then setKV s2 "adp" (dGetD kvs "adp" (.int 0)) else s2
  let s4 := if hasKey kvs "injury_risk" then
      setKV s3 "injury_risk" (dGetD kvs "injury_risk" (.str "")) else s3
  .dict s4

/-- One loop iteration over a player record: dict records are summarized,
anything else is skipped with `continue`. -/
def summarizePlayerOpt (p : Val) : Option Val :=
  match p with
  | .dict kvs => some (mkPlayerSummary kvs)
  | _ => Option.none

/-- The chunk loop of `_process_large_player_list_chunked`
(`for i in range(0, total_players, chunk_size)` with `chunk_size = 150`):
each window of 150 players is summarized element-wise and the results are
appended to one flat output list. -/
def chunkLoop (ps : List Val) : List Val :=
  if h : ps.isEmpty then []
  else (ps.take 150).filterMap summarizePlayerOpt ++ chunkLoop (ps.drop 150)
termination_by ps.length
decreasing_by
  simp only [List.length_drop]
  have : ps ≠ [] := by simpa [List.isEmpty_iff] using h
  have : 0 < ps.length := List.length_pos.mpr this
  omega

/-- `_process_large_player_list_chunked` (lines 1588-1657).  The body sits
in a `try/except` whose handler falls back to summarizing the first 200
players; no operation in the body can raise on a `Val` (malformed records
are skipped by the `isinstance` guard), so the handler is unreachable and
the embedding is the plain chunk loop. -/
def processLargePlayerListChunked (ps : List Val) : List Val := chunkLoop ps

/-- The per-player projection of Case 1 (position-keyed dict) of
`_summarize_fantasy_rankings` (lines 970-985); a malformed entry becomes an
`{"error": ...}` record. -/
def case1Player (p : Val) : Val :=
  match p with
  | .dict kvs =>
      let base : List (String × Val) :=
        [("name", dGetD kvs "display_name" (dGetD kvs "name" (.str ""))),
         ("team", dGetD kvs "team" (.str "")),
         ("rank", dGetD kvs "rank" (dGetD kvs "position_rank" (.int 0)))]
      let s1 := if hasKey kvs "proj_pts" then
          setKV base "projected_points" (dGetD kvs "proj_pts" (.int 0)) else base
      .dict s1
  | _ => .dict [("error", .str "Unexpected player data format")]

def posKeys : List String := ["QB", "RB", "WR", "TE", "K", "DEF"]

/-- Case 1 of `_summarize_fantasy_rankings` (lines 962-985): for every
position key whose value is a non-empty list, keep the first 25 players for
`"QB"` and the first 15 for any other position. -/
def frCase1Aux : List (String × Val) → List (String × Val) → List (String × Val)
  | [], acc => acc
  | (pos, players) :: rest, acc =>
      match players with
      | .list (p :: ps) =>
          frCase1Aux rest (setKV acc pos
            (.list (((p :: ps).take (if pos = "QB" then 25 else 15)).map case1Player)))
      | _ => frCase1Aux rest acc

/-- One probe of the Case-3 search loop (lines 1013-1029): an entry hits
when its value is a non-empty list headed by a dict. -/
def playersFieldHit (p : String × Val) : Option (List Val) :=
  match p.2 with
  | .list (x :: xs) => if isDictB x then some (x :: xs) else Option.none
  | _ => Option.none

/-- The Case-3 search loop: the first hit among the dict's items. -/
def findPlayersField (kvs : List (String × Val)) : Option (List Val) :=
  kvs.findSome? playersFieldHit

theorem playersFieldHit_eq {p : String × Val} {l : List Val}
    (h : playersFieldHit p = some l) : p.2 = Val.list l := by
  obtain ⟨k, v⟩ := p
  rcases v with _ | _ | _ | _ | xs | _ <;> simp [playersFieldHit] at h ⊢
  rcases xs with _ | ⟨x, xs⟩
  · simp at h
  · by_cases hd : isDictB x = true <;> simp [hd] at h
    simp [h]

theorem findPlayersField_mem {kvs : List (String × Val)} {l : List Val}
    (h : findPlayersField kvs = some l) : ∃ k, (k, Val.list l) ∈ kvs := by
  induction kvs with
  | nil => simp [findPlayersField] at h
  | cons p rest ih =>
      rw [findPlayersField, List.findSome?_cons] at h
      cases hf : playersFieldHit p with
      | some b =>
          rw [hf] at h
          obtain rfl : b = l := by simpa using h
          obtain ⟨k, v⟩ := p
          have := playersFieldHit_eq hf
          exact ⟨k, by simp_all⟩
      | none =>
          rw [hf] at h
          exact (ih h).imp (fun k hk => List.mem_cons_of_mem _ hk)

theorem sizeOf_list_lt_of_findPlayersField {kvs : List (String × Val)} {l : List Val}
    (h : findPlayersField kvs = some l) : sizeOf l + 1 < sizeOf (Val.dict kvs) := by
  obtain ⟨k, hmem⟩ := findPlayersField_mem h
  have := List.sizeOf_lt_sizeOf_of_mem hmem
  simp only [Prod.mk.sizeOf_spec, Val.list.sizeOf_spec] at this
  simp only [Val.dict.sizeOf_spec]
  omega

/-- The fallback returned by `_summarize_fantasy_rankings` for falsy input
(line 897). -/
def frEmptyText : String :=
  "According to the Fantasy Nerds data, NFL player rankings are determined by many factors including past performance, recent games, matchups, and projected usage. Rankings typically showcase the top players at each position based on expected fantasy points."

/-- `_summarize_fantasy_rankings` (lines 885-1036).  Its whole body after
the emptiness check sits in a `try/except`; no operation in the body can
raise on a `Val` (every access is guarded by `isinstance` checks), so the
handler of line 1034 is unreachable and the function is total.  The
recursion (`data` unwrapping, `players` / discovered player-list fields) is
on structurally smaller values. -/
def summarizeFantasyRankings (v : Val) : Val :=
  if v.truthy = false then .dict [("summary", .str frEmptyText)]
  else
    match v with
    | .list xs =>
        -- COMPREHENSIVE PROCESSING: chunked for > 200 players, direct otherwise
        if 200 < xs.length then .list (processLargePlayerListChunked xs)
        else .list (xs.filterMap summarizePlayerOpt)
    | .dict kvs =>
        if posKeys.any (fun pos => hasKey kvs pos) then
          -- Case 1 (lines 962-985): the loop builds the capped position-keyed
          -- dict `frCase1Aux kvs []`, but the branch has no return statement:
          -- control falls off the end of the try block and the function
          -- returns None.  (The construction itself cannot raise.)
          Val.none
        else
          match hData : getKV kvs "data" with
          | some (.list ds) => summarizeFantasyRankings (.list ds)
          | some (.dict ds) => summarizeFantasyRankings (.dict ds)
          | _ =>
              -- Case 3: metadata plus a players sample
              let base : List (String × Val) :=
                [("metadata", .dict (kvs.filter (fun p =>
                    (p.1 != "players" && p.1 != "data") && !isListOrDictB p.2))),
                 ("players_sample", .list [])]
              match hPl : getKV kvs "players" with
              | some (.list ps) =>
                  .dict (setKV base "players_sample" (summarizeFantasyRankings (.list ps)))
              | _ =>
                  match hFind : findPlayersField kvs with
                  | some l =>
                      if 30 < l.length then
                        -- tier1 = value[:15]; tier2 = value[50:60] if total_items > 60
                        -- else []; tier3 = value[150:155] if total_items > 155 else []
                        .dict (setKV base "players_sample" (summarizeFantasyRankings
                          (.list (l.take 15 ++
                            ((if 60 < l.length then (l.drop 50).take 10 else []) ++
                             (if 155 < l.length then (l.drop 150).take 5 else []))))))
                      else
                        .dict (setKV base "players_sample" (summarizeFantasyRankings
                          (.list (l.take 30))))
                  | Option.none => .dict base
    | _ => .dict [("summary", .str "Rankings data available but in unexpected format")]
termination_by sizeOf v
decreasing_by
  · exact sizeOf_lt_dict_of_getKV hData
  · exact sizeOf_lt_dict_of_getKV hData
  · have := sizeOf_lt_dict_of_getKV hPl
    simpa using this
  · have hlt := sizeOf_list_lt_of_findPlayersField hFind
    have hle := sizeOf_le_of_sublist (tiered_sublist l)
    simp only [Val.list.sizeOf_spec, dite_eq_ite] at hlt ⊢
    omega
  · have hlt := sizeOf_list_lt_of_findPlayersField hFind
    have hle := sizeOf_le_of_sublist (List.take_sublist 30 l)
    simp only [Val.list.sizeOf_spec] at hlt ⊢
    omega

/-! ## Further Python primitives used by the leaf summarizers -/

def pyUpperStr (s : String) : String := ⟨s.data.map Char.toUpper⟩

/-- `x.copy()`: dicts only (the source only copies dicts). -/
def pyCopy (v : Val) : Except String (List (String × Val)) :=
  match v with
  | .dict kvs => .ok kvs
  | _ => .error ("\x27" ++ v.typeName ++ "\x27 object has no attribute \x27copy\x27")

/-- Python `+` on values: numbers add, strings and lists concatenate,
anything else raises `TypeError`. -/
def pyAdd (a b : Val) : Except String Val :=
  match a, b with
  | .int x, .int y => .ok (.int (x + y))
  | .str x, .str y => .ok (.str (x ++ y))
  | .list x, .list y => .ok (.list (x ++ y))
  | _, _ => .error ("unsupported operand type(s) for +: \x27" ++ a.typeName ++ "\x27 and \x27" ++ b.typeName ++ "\x27")

/-- Python `<` on values: numbers (with booleans as 0/1) and strings are
comparable, mixed types raise `TypeError`.  This is the comparison used by
`sorted(...)`. -/
def pyLt (a b : Val) : Except String Bool :=
  match a, b with
  | .int x, .int y => .ok (decide (x < y))
  | .int x, .bool y => .ok (decide (x < (if y then 1 else 0)))
  | .bool x, .int y => .ok (decide ((if x then (1 : Int) else 0) < y))
  | .bool x, .bool y => .ok (decide ((if x then (1 : Int) else 0) < (if y then 1 else 0)))
  | .str x, .str y => .ok (decide (x < y))
  | _, _ => .error ("\x27<\x27 not supported between instances of \x27" ++ b.typeName ++ "\x27 and \x27" ++ a.typeName ++ "\x27")

/-- Stable insertion of a keyed element into an ascending run (ties and
greater keys keep the earlier element first, as Python's stable sort does). -/
def sortInsertAsc (x : Val × Val) : List (Val × Val) → Except String (List (Val × Val))
  | [] => .ok [x]
  | y :: ys => do
      let gt ← pyLt y.1 x.1
      if gt then do
        let rest ← sortInsertAsc x ys
        .ok (y :: rest)
      else .ok (x :: y :: ys)

/-- Stable ascending sort of `(key, value)` pairs; models
`sorted(xs, key=...)`.  (CPython's timsort performs a different sequence of
comparisons, so exotic inputs may raise where this model does not or vice
versa; no property below depends on that difference.) -/
def sortByKeyAsc : List (Val × Val) → Except String (List (Val × Val))
  | [] => .ok []
  | x :: xs => do
      let rest ← sortByKeyAsc xs
      sortInsertAsc x rest

def sortInsertDesc (x : Val × Val) : List (Val × Val) → Except String (List (Val × Val))
  | [] => .ok [x]
  | y :: ys => do
      let lt ← pyLt x.1 y.1
      if lt then do
        let rest ← sortInsertDesc x ys
        .ok (y :: rest)
      else .ok (x :: y :: ys)

/-- Stable descending sort; models `sorted(xs, key=..., reverse=True)`. -/
def sortByKeyDesc : List (Val × Val) → Except String (List (Val × Val))
  | [] => .ok []
  | x :: xs => do
      let rest ← sortByKeyDesc xs
      sortInsertDesc x rest

/-! ## `_summarize_boxscore` and `_extract_key_stats` (lines 795-863)

Neither function has a `try/except`: any exception raised while digging
into a malformed boxscore (for example `data["home"]` being a list, so that
`.get("name", "")` hits a non-dict) propagates to the caller. -/

/-- `_extract_key_stats` (lines 818-863). -/
def extractKeyStats (stats : Val) : Except String Val := do
  if stats.truthy = false then
    pure (.dict [])
  else do
    let acc0 : List (String × Val) := []
    let acc1 ← do
      if (← pyInStr "team" stats) then do
        let team ← pyGetItem stats "team"
        let fd ← pyGet team "first_downs" (.int 0)
        let ty ← pyGet team "total_yards" (.int 0)
        let pe ← pyGet team "penalties" (.int 0)
        let py ← pyGet team "penalty_yards" (.int 0)
        let tu ← pyGet team "turnovers" (.int 0)
        let tp ← pyGet team "possession_time" (.str "")
        pure (setKV acc0 "team" (.dict
          [("first_downs", fd), ("total_yards", ty), ("penalties", pe),
           ("penalty_yards", py), ("turnovers", tu), ("time_of_possession", tp)]))
      else pure acc0
    let acc2 ← do
      if (← pyInStr "passing" stats) then do
        let p ← pyGetItem stats "passing"
        let c ← pyGet p "completions" (.int 0)
        let a ← pyGet p "attempts" (.int 0)
        let y ← pyGet p "yards" (.int 0)
        let t ← pyGet p "touchdowns" (.int 0)
        let i ← pyGet p "interceptions" (.int 0)
        pure (setKV acc1 "passing" (.dict
          [("completions", c), ("attempts", a), ("yards", y),
           ("touchdowns", t), ("interceptions", i)]))
      else pure acc1
    let acc3 ← do
      if (← pyInStr "rushing" stats) then do
        let r ← pyGetItem stats "rushing"
        let a ← pyGet r "attempts" (.int 0)
        let y ← pyGet r "yards" (.int 0)
        let t ← pyGet r "touchdowns" (.int 0)
        pure (setKV acc2 "rushing" (.dict
          [("attempts", a), ("yards", y), ("touchdowns", t)]))
      else pure acc2
    let acc4 ← do
      if (← pyInStr "receiving" stats) then do
        let r ← pyGetItem stats "receiving"
        let c ← pyGet r "receptions" (.int 0)
        let y ← pyGet r "yards" (.int 0)
        let t ← pyGet r "touchdowns" (.int 0)
        pure (setKV acc3 "receiving" (.dict
          [("receptions", c), ("yards", y), ("touchdowns", t)]))
      else pure acc3
    pure (.dict acc4)

/-- One side (`home`/`away`) of the boxscore summary. -/
def boxscoreSide (data : Val) (side : String) (pointsKey : String) : Except String Val := do
  let sideV ← pyGet data side (.dict [])
  let nm ← pyGet sideV "name" (.str "")
  let al ← pyGet sideV "alias" (.str "")
  let pts ← pyGet data pointsKey (.int 0)
  let sc ← pyGet sideV "scoring" (.list [])
  let stRaw ← pyGet sideV "statistics" (.dict [])
  let st ← extractKeyStats stRaw
  pure (.dict [("name", nm), ("alias", al), ("points", pts), ("scoring", sc), ("statistics", st)])

/-- `_summarize_boxscore` (lines 795-816): no `try/except` anywhere, so a
malformed input makes it raise. -/
def summarizeBoxscore (data : Val) : Except String Val := do
  let idV ← pyGet data "id" (.str "")
  let statusV ← pyGet data "status" (.str "")
  let schedV ← pyGet data "scheduled" (.str "")
  let home ← boxscoreSide data "home" "home_points"
  let away ← boxscoreSide data "away" "away_points"
  pure (.dict [("id", idV), ("status", statusV), ("scheduled", schedV),
               ("home", home), ("away", away)])

/-! ## `_summarize_league_structure` (lines 475-537)

The dict branch computes `league_data.get("name", "NFL")` before entering
its `try`, so a truthy non-list non-dict input raises out of the function;
everything after that point is caught and degrades to the local fallback. -/

def leagueTeamEntry (team : Val) : Except String Val := do
  let nm ← pyGet team "name" (.str "")
  let mk ← pyGet team "market" (.str "")
  let al ← pyGet team "alias" (.str "")
  pure (.dict [("name", nm), ("market", mk), ("alias", al)])

def leagueDivision (division : Val) : Except String Val := do
  let nm ← pyGet division "name" (.str "")
  let al ← pyGet division "alias" (.str "")
  let teamsV ← pyGet division "teams" (.list [])
  let teams ← pyIter teamsV
  let ts ← teams.mapM leagueTeamEntry
  pure (.dict [("name", nm), ("alias", al), ("teams", .list ts)])

def leagueConference (conference : Val) : Except String Val := do
  let nm ← pyGet conference "name" (.str "")
  let al ← pyGet conference "alias" (.str "")
  let divsV ← pyGet conference "divisions" (.list [])
  let divs ← pyIter divsV
  let ds ← divs.mapM leagueDivision
  pure (.dict [("name", nm), ("alias", al), ("divisions", .list ds)])

def leagueListTeamSample (t : Val) : Option Val :=
  match t with
  | .dict kvs => some (.dict
      [("name", dGetD kvs "name" (.str "")), ("market", dGetD kvs "market" (.str "")),
       ("alias", dGetD kvs "alias" (.str "")), ("conference", dGetD kvs "conference" (.str "")),
       ("division", dGetD kvs "division" (.str ""))])
  | _ => Option.none

def leagueDictBody (leagueData : Val) (lnm : Val) : Except String Val := do
  let confs ←
    if (← pyInStr "conferences" leagueData) then do
      let cv ← pyGetItem leagueData "conferences"
      let cs ← pyIter cv
      cs.mapM leagueConference
    else pure []
  pure (Val.dict [("league_name", lnm), ("conferences", .list confs)])

def summarizeLeagueStructure (leagueData : Val) : Except String Val :=
  if leagueData.truthy = false then .ok (.dict [])
  else
    match leagueData with
    | .list teams =>
        .ok (.dict
          [("league_name", .str "NFL"), ("teams_count", .int (teams.length : Int)),
           ("teams_sample", .list ((teams.take 10).filterMap leagueListTeamSample))])
    | _ => do
        let lnm ← pyGet leagueData "name" (.str "NFL")   -- before the try: may raise
        pure (match leagueDictBody leagueData lnm with
          | .ok v => v
          | .error _ =>
              .dict [("summary", .str "League structure data available but could not be summarized")])

/-! ## `_summarize_standings_data` (lines 650-694) -/

def standingsFallbackText : String :=
  "According to the Fantasy Nerds data, NFL standings are organized by division and conference, with each team\x27s win-loss record, winning percentage, points scored, and points allowed. Teams are ranked within their divisions based on these metrics, with division winners securing automatic playoff berths."

def standingsTeamEntry (team : Val) : Except String Val := do
  let nm ← pyGet team "name" (.str "")
  let al ← pyGet team "alias" (.str "")
  let w ← pyGet team "wins" (.int 0)
  let l ← pyGet team "losses" (.int 0)
  let t ← pyGet team "ties" (.int 0)
  let wp ← pyGet team "win_pct" (.int 0)
  let pf ← pyGet team "points_for" (.int 0)
  let pa ← pyGet team "points_against" (.int 0)
  pure (.dict [("name", nm), ("alias", al), ("wins", w), ("losses", l), ("ties", t),
               ("win_pct", wp), ("points_for", pf), ("points_against", pa)])

def standingsDivision (division : Val) : Except String Val := do
  let nm ← pyGet division "name" (.str "")
  let al ← pyGet division "alias" (.str "")
  let teamsV ← pyGet division "teams" (.list [])
  let teams ← pyIter teamsV
  let ts ← teams.mapM standingsTeamEntry
  pure (.dict [("name", nm), ("alias", al), ("teams", .list ts)])

def standingsConference (conference : Val) : Except String Val := do
  let nm ← pyGet conference "name" (.str "")
  let al ← pyGet conference "alias" (.str "")
  let divsV ← pyGet conference "divisions" (.list [])
  let divs ← pyIter divsV
  let ds ← divs.mapM standingsDivision
  pure (.dict [("name", nm), ("alias", al), ("divisions", .list ds)])

def standingsBody (sd : Val) (year : Val) : Except String Val := do
  let confs ←
    if (← pyInStr "conferences" sd) then do
      let cv ← pyGetItem sd "conferences"
      let cs ← pyIter cv
      cs.mapM standingsConference
    else pure []
  pure (Val.dict [("season", year), ("conferences", .list confs)])

def summarizeStandingsData (sd : Val) : Except String Val :=
  if sd.truthy = false then .ok (.dict [])
  else do
    -- `standings_data.get("season", {}).get("year", "")` runs before the try
    let seasonV ← pyGet sd "season" (.dict [])
    let year ← pyGet seasonV "year" (.str "")
    pure (match standingsBody sd year with
      | .ok v => v
      | .error _ => .dict [("summary", .str standingsFallbackText)])

/-! ## `_summarize_schedule_data` (lines 696-750): fully inside a `try`. -/

def scheduleEmptyText : String :=
  "According to the Fantasy Nerds data, the NFL regular season typically runs from early September through early January, followed by the playoffs. Recent games would have included weekly matchups on Thursday night, Sunday, and Monday. The most recent games would have been part of the latest completed week (for example, Week 18 if it\x27s the end of the regular season, or playoff games if the postseason has started).\n\nIf you\x27re interested in a specific week or team, let me know and I can provide more targeted information from my NFL knowledge, such as notable matchups, key results, and interesting storylines from the most recent NFL week."

def scheduleCatchText : String :=
  "According to the Fantasy Nerds data, the NFL schedule typically includes regular season games from September through January, followed by playoffs. Games are usually played on Thursdays, Sundays, and Mondays."

def scheduleGameEntry (game : Val) : Except String Val := do
  let idD ← pyGet game "id" (.str "")
  let gid ← pyGet game "gameId" idD
  let season ← pyGet game "season" (.str "")
  let week ← pyGet game "week" (.str "")
  let schedD ← pyGet game "scheduled" (.str "")
  let gdate ← pyGet game "game_date" schedD
  let homeV ← pyGet game "home" (.dict [])
  let htD ← pyGet homeV "alias" (.str "")
  let ht ← pyGet game "home_team" htD
  let awayV ← pyGet game "away" (.dict [])
  let atD ← pyGet awayV "alias" (.str "")
  let awayTeam ← pyGet game "away_team" atD
  let hsD ← pyGet game "home_points" .none
  let hs ← pyGet game "home_score" hsD
  let asD ← pyGet game "away_points" .none
  let asc ← pyGet game "away_score" asD
  let tv ← pyGet game "tv_station" (.str "")
  let win ← pyGet game "winner" .none
  pure (.dict [("gameId", gid), ("season", season), ("week", week), ("game_date", gdate),
               ("home_team", ht), ("away_team", awayTeam), ("home_score", hs), ("away_score", asc),
               ("tv_station", tv), ("winner", win)])

def scheduleGamesLoop : List Val → Except String (List Val)
  | [] => .ok []
  | g :: rest =>
      match g with
      | .dict kvs => do
          let e ← scheduleGameEntry (.dict kvs)
          let r ← scheduleGamesLoop rest
          .ok (e :: r)
      | _ => scheduleGamesLoop rest

def scheduleBody (data : Val) : Except String Val := do
  let (year, type_, games) ←
    match data with
    | .list xs => pure ((Val.str "current", Val.str "regular", pySliceTo xs 10))
    | _ => do
        let y ← pyGet data "year" (.str "")
        let t ← pyGet data "type" (.str "")
        let gv ← pyGet data "games" (.list [])
        let gsl ← pySliceVal gv 10
        let gs ← pyIter gsl
        pure ((y, t, gs))
  let entries ← scheduleGamesLoop games
  if entries.isEmpty then
    pure (Val.dict [("summary", .str scheduleEmptyText)])
  else
    pure (Val.dict [("year", year), ("type", type_), ("games", .list entries)])

def summarizeScheduleData (data : Val) : Val :=
  match scheduleBody data with
  | .ok v => v
  | .error _ => .dict [("summary", .str scheduleCatchText)]

/-! ## `_summarize_team_profile` (lines 539-584): body inside a `try`. -/

def coachEntry (coach : Val) : Except String Val := do
  let nm ← pyGet coach "name" (.str "")
  let pos ← pyGet coach "position" (.str "")
  let ex ← pyGet coach "experience" (.str "")
  pure (.dict [("name", nm), ("position", pos), ("experience", ex)])

def keyPlayerEntry (p : Val) : Except String Val := do
  let nm ← pyGet p "name" (.str "")
  let pos ← pyGet p "position" (.str "")
  let jn ← pyGet p "jersey_number" (.str "")
  let d ← pyGet p "depth" (.int 0)
  pure (.dict [("name", nm), ("position", pos), ("jersey_number", jn), ("depth", d)])

def teamProfileBody (profile : Val) : Except String Val := do
  let idV ← pyGet profile "id" (.str "")
  let nm ← pyGet profile "name" (.str "")
  let mk ← pyGet profile "market" (.str "")
  let al ← pyGet profile "alias" (.str "")
  let cf ← pyGet profile "conference" (.str "")
  let dv ← pyGet profile "division" (.str "")
  let coaches ←
    if (← pyInStr "coaches" profile) then do
      let cv ← pyGetItem profile "coaches"
      let csl ← pySliceVal cv 3
      let cs ← pyIter csl
      cs.mapM coachEntry
    else pure []
  let keyPlayers ←
    if (← pyInStr "players" profile) then do
      let pv ← pyGetItem profile "players"
      let ps ← pyIter pv
      let keys ← ps.mapM (fun p => pyGet p "depth" (.int 99))
      let sorted ← sortByKeyAsc (keys.zip ps)
      ((sorted.map Prod.snd).take 10).mapM keyPlayerEntry
    else pure []
  pure (Val.dict
    [("team_info", .dict [("id", idV), ("name", nm), ("market", mk), ("alias", al),
                          ("conference", cf), ("division", dv)]),
     ("coaches", .list coaches), ("key_players", .list keyPlayers)])

def summarizeTeamProfile (profile : Val) : Val :=
  if profile.truthy = false then .dict []
  else
    match teamProfileBody profile with
    | .ok v => v
    | .error _ => .dict [("summary", .str "Team profile data available but could not be summarized")]

/-! ## `_summarize_team_injuries` (lines 586-610)

`injuries_data.get("name", "")` runs before the `try`, so a truthy non-dict
input raises out of the function. -/

def teamInjuryPlayerEntry (p : Val) : Except String Val := do
  let nm ← pyGet p "name" (.str "")
  let pos ← pyGet p "position" (.str "")
  let st ← pyGet p "status" (.str "")
  let inj ← pyGet p "injury" (.str "")
  pure (.dict [("name", nm), ("position", pos), ("status", st), ("injury", inj)])

def teamInjuriesBody (inj : Val) (nm al : Val) : Except String Val := do
  let players ←
    if (← pyInStr "players" inj) then do
      let pv ← pyGetItem inj "players"
      let sl ← pySliceVal pv 10
      let ps ← pyIter sl
      ps.mapM teamInjuryPlayerEntry
    else pure []
  pure (Val.dict [("team", nm), ("alias", al), ("injured_players", .list players)])

def summarizeTeamInjuries (inj : Val) : Except String Val :=
  if inj.truthy = false then .ok (.dict [])
  else do
    let nm ← pyGet inj "name" (.str "")
    let al ← pyGet inj "alias" (.str "")
    pure (match teamInjuriesBody inj nm al with
      | .ok v => v
      | .error _ =>
          .dict [("summary", .str "Team injuries data available but could not be summarized")])

/-! ## `_summarize_games` (lines 612-648): body inside a `try`. -/

def gamesEntry (game : Val) : Except String Val := do
  let ht0 ← pyGet game "home_team" (.str "")
  let at0 ← pyGet game "away_team" (.str "")
  let ht ←
    if ht0.truthy = false then do
      let hv ← pyGet game "home" (.dict [])
      pyGet hv "alias" (.str "")
    else pure ht0
  let awayTeam ←
    if at0.truthy = false then do
      let av ← pyGet game "away" (.dict [])
      pyGet av "alias" (.str "")
    else pure at0
  let idD ← pyGet game "id" (.str "")
  let gid ← pyGet game "gameId" idD
  let week ← pyGet game "week" (.str "")
  let schedD ← pyGet game "scheduled" (.str "")
  let gdate ← pyGet game "game_date" schedD
  let tv ← pyGet game "tv_station" (.str "")
  let hsD ← pyGet game "home_points" (.int 0)
  let hs ← pyGet game "home_score" hsD
  let asD ← pyGet game "away_points" (.int 0)
  let asc ← pyGet game "away_score" asD
  let st ← pyGet game "status" (.str "Scheduled")
  pure (.dict [("gameId", gid), ("week", week), ("game_date", gdate), ("home_team", ht),
               ("away_team", awayTeam), ("tv_station", tv), ("home_score", hs),
               ("away_score", asc), ("status", st)])

def gamesBody (gd : Val) : Except String (List Val) := do
  let sl ← pySliceVal gd 10
  let gs ← pyIter sl
  gs.mapM gamesEntry

def summarizeGames (gd : Val) : Val :=
  if gd.truthy = false then .list []
  else
    match gamesBody gd with
    | .ok entries => .list entries
    | .error _ =>
        .list [.dict [("summary", .str "Games data available but could not be summarized")]]

/-! ## `_summarize_injury_data` (lines 752-793): body inside a `try`. -/

def injuryFallbackText : String :=
  "According to the Fantasy Nerds data, NFL injuries are closely monitored throughout the week with practice reports on Wednesday, Thursday, and Friday. Players are designated as Questionable (Q), Doubtful (D), or Out (O), with detailed information about the specific injury and expected recovery timeline where available."

def injuriesTeamEntry (team : Val) : Except String Val := do
  let nm ← pyGet team "name" (.str "")
  let al ← pyGet team "alias" (.str "")
  let pv ← pyGet team "players" (.list [])
  let sl ← pySliceVal pv 10
  let ps ← pyIter sl
  let entries ← ps.mapM teamInjuryPlayerEntry
  pure (.dict [("name", nm), ("alias", al), ("injuries", .list entries)])

def injuryBody (data : Val) : Except String Val := do
  let (week, teams) ←
    match data with
    | .list xs => pure ((Val.str "current", pySliceTo xs 10))
    | _ => do
        let w ← pyGet data "week" (.str "")
        let tv ← pyGet data "teams" (.list [])
        let tsl ← pySliceVal tv 10
        let ts ← pyIter tsl
        pure ((w, ts))
  let entries ← teams.mapM injuriesTeamEntry
  pure (Val.dict [("week", week), ("teams_with_injuries", .list entries)])

def summarizeInjuryData (data : Val) : Val :=
  match injuryBody data with
  | .ok v => v
  | .error _ => .dict [("summary", .str injuryFallbackText)]

/-! ## `_summarize_news_data` (lines 1038-1072): body inside a `try`. -/

def newsListLoop : List Val → Except String (List Val)
  | [] => .ok []
  | a :: rest =>
      match a with
      | .dict kvs => do
          let exc := dGetD kvs "article_excerpt" (.str "")
          let n ← pyLen exc
          let excerptV ←
            if 200 < n then do
              let sl ← pySliceVal exc 200
              pyAdd sl (.str "...")
            else pure exc
          let e := Val.dict
            [("headline", dGetD kvs "article_headline" (.str "")),
             ("date", dGetD kvs "article_date" (.str "")),
             ("author", dGetD kvs "article_author" (.str "")),
             ("excerpt", excerptV),
             ("teams", dGetD kvs "teams" (.list []))]
          let r ← newsListLoop rest
          .ok (e :: r)
      | _ => newsListLoop rest

def newsBody (news : Val) : Except String Val :=
  match news with
  | .list xs => do
      let es ← newsListLoop (xs.take 5)
      pure (.list es)
  | .dict kvs => do
      let count ←
        if hasKey kvs "articles" then pyLen (dGetD kvs "articles" (.list []))
        else pure kvs.length
      pure (.dict [("summary", .str "News data available"), ("count", .int (count : Int))])
  | _ => .ok (.dict [("summary", .str "News data available but in unexpected format")])

def summarizeNewsData (news : Val) : Val :=
  match newsBody news with
  | .ok v => v
  | .error e =>
      .dict [("summary", .str "News data available but could not be summarized"), ("error", .str e)]

/-! ## `_summarize_ros_projections` and its chunked helper (lines 1074-1145,
1659-1735) -/

def rosEmptyText : String :=
  "According to the Fantasy Nerds data, Rest of Season (ROS) projections for NFL players take into account upcoming matchups, recent performance trends, team situations, and player health. These projections help fantasy managers make decisions about which players to start, bench, trade, or acquire for the remainder of the season."

def rosChunkStats : List String :=
  ["passing_yards", "passing_touchdowns", "rushing_yards", "rushing_touchdowns",
   "receiving_yards", "receiving_touchdowns", "receptions", "fumbles", "interceptions"]

def rosDirectStats : List String :=
  ["passing_yards", "passing_touchdowns", "rushing_yards", "rushing_touchdowns",
   "receiving_yards", "receiving_touchdowns"]

/-- `for stat in ...: if stat in player: player_summary[stat] = player.get(stat, 0)` -/
def addStats (kvs : List (String × Val)) (stats : List String)
    (acc : List (String × Val)) : List (String × Val) :=
  stats.foldl (fun acc st => if hasKey kvs st then setKV acc st (dGetD kvs st (.int 0)) else acc) acc

/-- One player of `_process_large_player_list_chunked_ros`; the Gordon debug
check lowers `player.get("name", "")`, which raises on a non-string name. -/
def rosChunkPlayer (position : String) (p : Val) : Except String (Option Val) :=
  match p with
  | .dict kvs => do
      let base : List (String × Val) :=
        [("name", dGetD kvs "name" (.str "")), ("team", dGetD kvs "team" (.str "")),
         ("position", dGetD kvs "position" (.str position))]
      let low ← pyLower (dGetD kvs "name" (.str ""))
      let _ := pyStrIn "gordon" low
      let s1 := if hasKey kvs "proj_pts" then
          setKV base "projected_points" (dGetD kvs "proj_pts" (.int 0)) else base
      pure (some (.dict (addStats kvs rosChunkStats s1)))
  | _ => pure Option.none

def rosChunkBody (position : String) : List Val → Except String (List Val)
  | [] => .ok []
  | p :: rest => do
      let o ← rosChunkPlayer position p
      let r ← rosChunkBody position rest
      pure (match o with | some e => e :: r | Option.none => r)

/-- `_process_ros_fallback` (lines 1723-1735). -/
def processRosFallback (ps : List Val) (position : String) : List Val :=
  ps.filterMap fun p =>
    match p with
    | .dict kvs => some (.dict
        [("name", dGetD kvs "name" (.str "")), ("team", dGetD kvs "team" (.str "")),
         ("position", dGetD kvs "position" (.str position)),
         ("projected_points", dGetD kvs "proj_pts" (.int 0))])
    | _ => Option.none

/-- `_process_large_player_list_chunked_ros` (lines 1659-1721).  The
100-wide chunk windows only affect debug output, so the loop is a flat
traversal; on an exception the handler summarizes the first 50 players. -/
def processLargePlayerListChunkedRos (ps : List Val) (position : String) : List Val :=
  match rosChunkBody position ps with
  | .ok l => l
  | .error _ => processRosFallback (pySliceTo ps 50) position

def rosDirectPlayer (position : String) (p : Val) : Option Val :=
  match p with
  | .dict kvs =>
      let base : List (String × Val) :=
        [("name", dGetD kvs "name" (.str "")), ("team", dGetD kvs "team" (.str "")),
         ("position", dGetD kvs "position" (.str position))]
      let s1 := if hasKey kvs "proj_pts" then
          setKV base "projected_points" (dGetD kvs "proj_pts" (.int 0)) else base
      some (.dict (addStats kvs rosDirectStats s1))
  | _ => Option.none

def rosProjectionsLoop : List (String × Val) → List (String × Val) → List (String × Val)
  | [], acc => acc
  | (position, players) :: rest, acc =>
      match players with
      | .list (p :: ps) =>
          let l := p :: ps
          let v :=
            if 50 < l.length then Val.list (processLargePlayerListChunkedRos l position)
            else Val.list (l.filterMap (rosDirectPlayer position))
          rosProjectionsLoop rest (setKV acc position v)
      | _ => rosProjectionsLoop rest acc

def rosBody (ros : Val) : Except String Val :=
  match ros with
  | .list xs => .ok (summarizeFantasyRankings (.list xs))
  | _ => do
      let season ← pyGet ros "season" (.str "")
      let kvs ← pyItems ros
      let metadata := kvs.filter fun p =>
        (p.1 != "projections" && p.1 != "season") && !(isDictB p.2)
      match getKV kvs "projections" with
      | some (.dict projs) =>
          .ok (.dict (rosProjectionsLoop projs
            [("season", season), ("metadata", .dict metadata)]))
      | _ => .ok (summarizeFantasyRankings ros)

def summarizeRosProjections (ros : Val) : Val :=
  if ros.truthy = false then .dict [("summary", .str rosEmptyText)]
  else
    match rosBody ros with
    | .ok v => v
    | .error e =>
        .dict [("summary", .str "ROS projections data available but could not be summarized"),
               ("error", .str e)]

/-! ## `_summarize_players_data` (lines 1147-1180) -/

def playersSample (p : Val) : Option Val :=
  match p with
  | .dict kvs => some (.dict
      [("name", dGetD kvs "display_name" (dGetD kvs "name" (.str ""))),
       ("team", dGetD kvs "team" (.str "")),
       ("position", dGetD kvs "position" (.str "")),
       ("jersey_number", dGetD kvs "jersey" (.str "")),
       ("status", dGetD kvs "status" (.str ""))])
  | _ => Option.none

/-- `_summarize_players_data`: recursion on the `"players"` member; for
inputs where `"players" in players_data` raises (or string subscription
fails) the `except` handler produces the error fallback. -/
def summarizePlayersData (pd : Val) : Val :=
  match pd with
  | .list xs =>
      .dict [("players_count", .int (xs.length : Int)),
             ("sample_players", .list ((xs.take 20).filterMap playersSample))]
  | .dict kvs =>
      match hPl : getKV kvs "players" with
      | some inner => summarizePlayersData inner
      | Option.none => .dict [("summary", .str "Players data available but in unexpected format")]
  | .str s =>
      if pyStrIn "players" s then
        .dict [("summary", .str "Players data available but could not be summarized"),
               ("error", .str "string indices must be integers")]
      else .dict [("summary", .str "Players data available but in unexpected format")]
  | v =>
      .dict [("summary", .str "Players data available but could not be summarized"),
             ("error", .str ("argument of type \x27" ++ v.typeName ++ "\x27 is not iterable"))]
termination_by sizeOf pd
decreasing_by
  exact sizeOf_lt_dict_of_getKV hPl

/-! ## `_summarize_bye_weeks` (lines 1307-1334) -/

def byeWeekEntry (w : Val) : Option Val :=
  match w with
  | .dict kvs => some (.dict
      [("week", dGetD kvs "week" (.str "")), ("teams", dGetD kvs "teams" (.list []))])
  | _ => Option.none

def summarizeByeWeeks (v : Val) : Val :=
  match v with
  | .list xs => .dict [("bye_weeks", .list (xs.filterMap byeWeekEntry))]
  | .dict kvs =>
      match hW : getKV kvs "weeks" with
      | some inner => summarizeByeWeeks inner
      | Option.none => .dict [("summary", .str "Bye weeks data available"), ("data", .dict kvs)]
  | _ => .dict [("summary", .str "Bye weeks data available but in unexpected format")]
termination_by sizeOf v
decreasing_by
  exact sizeOf_lt_dict_of_getKV hW

/-! ## `_summarize_add_drops` (lines 1336-1371) -/

def addDropsLoop : List Val → List Val × List Val → List Val × List Val
  | [], acc => acc
  | t :: rest, (adds, drops) =>
      match t with
      | .dict kvs =>
          let entry : Val := .dict
            [("player", dGetD kvs "player" (.str "")), ("team", dGetD kvs "team" (.str "")),
             ("position", dGetD kvs "position" (.str "")),
             ("percentage", dGetD kvs "percentage" (.int 0))]
          if dGetD kvs "type" .none = .str "add" then
            addDropsLoop rest ((adds ++ [entry], drops))
          else if dGetD kvs "type" .none = .str "drop" then
            addDropsLoop rest ((adds, drops ++ [entry]))
          else addDropsLoop rest ((adds, drops))
      | _ => addDropsLoop rest ((adds, drops))

def summarizeAddDrops (v : Val) : Val :=
  match v with
  | .list xs =>
      let (adds, drops) := addDropsLoop (pySliceTo xs 10) (([], []))
      .dict [("total_transactions", .int (xs.length : Int)),
             ("top_adds", .list adds), ("top_drops", .list drops)]
  | _ => .dict [("summary", .str "Add/drops data available but in unexpected format")]

/-! ## `_summarize_weather_data` (lines 1373-1399) -/

def weatherEntry (g : Val) : Option Val :=
  match g with
  | .dict kvs => some (.dict
      [("game", .str (pyStrOf (dGetD kvs "away_team" (.str "")) ++ " @ " ++
          pyStrOf (dGetD kvs "home_team" (.str "")))),
       ("temperature", dGetD kvs "temperature" (.str "")),
       ("conditions", dGetD kvs "conditions" (.str "")),
       ("wind", dGetD kvs "wind" (.str "")),
       ("precipitation", dGetD kvs "precipitation" (.str ""))])
  | _ => Option.none

def summarizeWeatherData (v : Val) : Val :=
  match v with
  | .list xs =>
      .dict [("games_count", .int (xs.length : Int)),
             ("forecasts", .list ((xs.take 5).filterMap weatherEntry))]
  | _ => .dict [("summary", .str "Weather data available but in unexpected format")]

/-! ## `_summarize_dfs_data` (lines 1401-1431) -/

def dfsPlayerEntry (p : Val) : Option Val :=
  match p with
  | .dict kvs => some (.dict
      [("player", dGetD kvs "name" (.str "")), ("team", dGetD kvs "team" (.str "")),
       ("position", dGetD kvs "position" (.str "")),
       ("salary", dGetD kvs "salary" (.int 0)),
       ("projected_points", dGetD kvs "projected_points" (.int 0)),
       ("value", dGetD kvs "value" (.int 0))])
  | _ => Option.none

def dfsBody (xs : List Val) : Except String Val := do
  let keys ← xs.mapM (fun x => pyGet x "value" (.int 0))
  let sorted ← sortByKeyDesc (keys.zip xs)
  let top := (sorted.map Prod.snd).take 10
  pure (.dict [("players_count", .int (xs.length : Int)),
               ("top_value_players", .list (top.filterMap dfsPlayerEntry))])

def summarizeDfsData (v : Val) : Val :=
  match v with
  | .list xs =>
      match dfsBody xs with
      | .ok r => r
      | .error e =>
          .dict [("summary", .str "DFS data available but could not be summarized"),
                 ("error", .str e)]
  | _ => .dict [("summary", .str "DFS data available but in unexpected format")]

/-! ## `_summarize_dfs_slates` (lines 1433-1458) -/

def dfsSlatesLoop : List Val → Except String (List Val)
  | [] => .ok []
  | s :: rest =>
      match s with
      | .dict kvs => do
          let n ← pyLen (dGetD kvs "games" (.list []))
          let e := Val.dict
            [("slate_id", dGetD kvs "slate_id" (.str "")), ("name", dGetD kvs "name" (.str "")),
             ("start_time", dGetD kvs "start_time" (.str "")),
             ("games_count", .int (n : Int))]
          let r ← dfsSlatesLoop rest
          .ok (e :: r)
      | _ => dfsSlatesLoop rest

def summarizeDfsSlates (v : Val) : Val :=
  match v with
  | .list xs =>
      match dfsSlatesLoop xs with
      | .ok entries =>
          .dict [("slates_count", .int (xs.length : Int)), ("available_slates", .list entries)]
      | .error e =>
          .dict [("summary", .str "DFS slates data available but could not be summarized"),
                 ("error", .str e)]
  | _ => .dict [("summary", .str "DFS slates data available but in unexpected format")]

/-! ## `_summarize_nfl_picks` (lines 1460-1485) -/

def nflPicksLoop : List Val → Except String (List Val)
  | [] => .ok []
  | g :: rest =>
      match g with
      | .dict kvs => do
          let ep ← pySliceVal (dGetD kvs "expert_picks" (.list [])) 3
          let e := Val.dict
            [("game", .str (pyStrOf (dGetD kvs "away_team" (.str "")) ++ " @ " ++
                pyStrOf (dGetD kvs "home_team" (.str "")))),
             ("spread", dGetD kvs "spread" (.str "")),
             ("over_under", dGetD kvs "over_under" (.str "")),
             ("expert_picks", ep)]
          let r ← nflPicksLoop rest
          .ok (e :: r)
      | _ => nflPicksLoop rest

def summarizeNflPicks (v : Val) : Val :=
  match v with
  | .list xs =>
      match nflPicksLoop xs with
      | .ok entries =>
          .dict [("games_count", .int (xs.length : Int)), ("picks", .list entries)]
      | .error e =>
          .dict [("summary", .str "NFL picks data available but could not be summarized"),
                 ("error", .str e)]
  | _ => .dict [("summary", .str "NFL picks data available but in unexpected format")]

/-! ## `_summarize_player_details` (lines 2219-2305) -/

/-- One record of the `player_data` list (no `isinstance` guard in the
source, so a non-dict element raises into the handler).  The source dict
literal repeats the `"team"` and `"jersey_number"` keys with identical
values; a Python dict literal keeps the first position, so the embedding
lists each key once. -/
def playerDetailEntry (p : Val) : Except String Val := do
  let nm ← pyGet p "name" (.str "Unknown")
  let pos ← pyGet p "position" (.str "N/A")
  let tm ← pyGet p "team" (.str "N/A")
  let jr ← pyGet p "jersey" (.str "N/A")
  let ht ← pyGet p "height" (.str "N/A")
  let wt ← pyGet p "weight" (.str "N/A")
  let ag ← pyGet p "age" (.str "N/A")
  let ex ← pyGet p "experience" (.str "N/A")
  let co ← pyGet p "college" (.str "N/A")
  let st ← pyGet p "status" (.str "N/A")
  let base : List (String × Val) :=
    [("name", nm), ("position", pos), ("team", tm), ("jersey_number", jr),
     ("height", ht), ("weight", wt), ("age", ag), ("experience", ex),
     ("college", co), ("status", st)]
  let withStats ←
    if (← pyInStr "stats" p) then do
      let sv ← pyGetItem p "stats"
      pure (setKV base "stats" sv)
    else pure base
  pure (.dict withStats)

def playerDetailsDirect (kvs : List (String × Val)) : Val :=
  .dict [("player_found", .bool true),
         ("player", .dict
           [("name", dGetD kvs "name" (.str "Unknown")),
            ("position", dGetD kvs "position" (.str "N/A")),
            ("team", dGetD kvs "team" (.str "N/A")),
            ("jersey_number", dGetD kvs "jersey" (.str "N/A")),
            ("additional_info", .str "Direct player data format")])]

def playerDetailsBody (pd : Val) : Except String Val :=
  match pd with
  | .dict kvs =>
      if hasKey kvs "error" then
        .ok (.dict [("error", (getKV kvs "error").getD .none), ("player_found", .bool false)])
      else if hasKey kvs "player_data" then
        let playerData := (getKV kvs "player_data").getD .none
        let metadata := dGetD kvs "metadata" (.dict [])
        match playerData with
        | .list (p :: ps) => do
            let entries ← ((p :: ps).take 5).mapM playerDetailEntry
            .ok (.dict [("player_found", .bool true), ("players", .list entries),
                        ("total_players_found", .int ((p :: ps).length : Int)),
                        ("search_details", metadata)])
        | .dict pkvs =>
            .ok (.dict [("player_found", .bool true),
                        ("player", .dict
                          [("name", dGetD pkvs "name" (.str "Unknown")),
                           ("position", dGetD pkvs "position" (.str "N/A")),
                           ("team", dGetD pkvs "team" (.str "N/A")),
                           ("jersey_number", dGetD pkvs "jersey" (.str "N/A")),
                           ("height", dGetD pkvs "height" (.str "N/A")),
                           ("weight", dGetD pkvs "weight" (.str "N/A")),
                           ("age", dGetD pkvs "age" (.str "N/A")),
                           ("experience", dGetD pkvs "experience" (.str "N/A")),
                           ("college", dGetD pkvs "college" (.str "N/A")),
                           ("status", dGetD pkvs "status" (.str "N/A")),
                           ("stats", dGetD pkvs "stats" (.dict []))]),
                        ("search_details", metadata)])
        | _ => .ok (playerDetailsDirect kvs)
      else .ok (playerDetailsDirect kvs)
  | _ => .ok (.dict [("error", .str "Unexpected player details format"),
                     ("player_found", .bool false)])

def summarizePlayerDetails (pd : Val) : Val :=
  match playerDetailsBody pd with
  | .ok v => v
  | .error e =>
      .dict [("error", .str ("Failed to summarize player details: " ++ e)),
             ("player_found", .bool false)]

/-! ## `_summarize_draft_projections` and its chunked helper
(lines 1487-1586, 1737-1834) -/

/-- `enumerate(..., start)` combined with the dict guard: ranks advance for
every element, skipped or not. -/
def enumFilterMap (f : Nat → Val → Option Val) : Nat → List Val → List Val
  | _, [] => []
  | i, p :: rest =>
      match f i p with
      | some e => e :: enumFilterMap f (i + 1) rest
      | Option.none => enumFilterMap f (i + 1) rest

/-- The special `K` branch of `_summarize_draft_projections` (lines
1513-1535). -/
def draftKPlayer (position : String) (rank : Nat) (p : Val) : Option Val :=
  match p with
  | .dict kvs => some (.dict
      [("rank", .int (rank : Int)), ("name", dGetD kvs "name" (.str "")),
       ("team", dGetD kvs "team" (.str "")),
       ("position", dGetD kvs "position" (.str position)),
       ("player_id", dGetD kvs "playerId" (.str "")),
       ("projections", .dict
         [("field_goals", dGetD kvs "field_goals_made" (.str "")),
          ("extra_points", dGetD kvs "extra_points_made" (.str "")),
          ("field_goal_attempts", dGetD kvs "field_goals_attempted" (.str "")),
          ("extra_point_attempts", dGetD kvs "extra_points_attempted" (.str ""))])])
  | _ => Option.none

/-- The direct (small-list) branch of `_summarize_draft_projections`
(lines 1540-1572): only `QB` and `RB`/`WR`/`TE` get a projections block. -/
def draftDirectPlayer (position : String) (rank : Nat) (p : Val) : Option Val :=
  match p with
  | .dict kvs =>
      let base : List (String × Val) :=
        [("rank", .int (rank : Int)), ("name", dGetD kvs "name" (.str "")),
         ("team", dGetD kvs "team" (.str "")),
         ("position", dGetD kvs "position" (.str position)),
         ("player_id", dGetD kvs "playerId" (.str ""))]
      let withProj :=
        if position = "QB" then
          setKV base "projections" (.dict
            [("passing_yards", dGetD kvs "passing_yards" (.str "")),
             ("passing_touchdowns", dGetD kvs "passing_touchdowns" (.str "")),
             ("rushing_yards", dGetD kvs "rushing_yards" (.str "")),
             ("rushing_touchdowns", dGetD kvs "rushing_touchdowns" (.str ""))])
        else if position = "RB" ∨ position = "WR" ∨ position = "TE" then
          setKV base "projections" (.dict
            [("rushing_yards", dGetD kvs "rushing_yards" (.str "")),
             ("rushing_touchdowns", dGetD kvs "rushing_touchdowns" (.str "")),
             ("receiving_yards", dGetD kvs "receiving_yards" (.str "")),
             ("receiving_touchdowns", dGetD kvs "receiving_touchdowns" (.str "")),
             ("receptions", dGetD kvs "receptions" (.str ""))])
        else base
      some (.dict withProj)
  | _ => Option.none

/-- One player of `_process_large_player_list_chunked_draft_projections`
(lines 1766-1811). -/
def draftChunkPlayer (position : String) (rank : Nat) (p : Val) : Option Val :=
  match p with
  | .dict kvs =>
      let base : List (String × Val) :=
        [("rank", .int (rank : Int)), ("name", dGetD kvs "name" (.str "")),
         ("team", dGetD kvs "team" (.str "")),
         ("position", dGetD kvs "position" (.str position)),
         ("player_id", dGetD kvs "playerId" (.str ""))]
      let withProj :=
        if position = "QB" then
          setKV base "projections" (.dict
            [("passing_yards", dGetD kvs "passing_yards" (.str "")),
             ("passing_touchdowns", dGetD kvs "passing_touchdowns" (.str "")),
             ("rushing_yards", dGetD kvs "rushing_yards" (.str "")),
             ("rushing_touchdowns", dGetD kvs "rushing_touchdowns" (.str "")),
             ("interceptions", dGetD kvs "interceptions" (.str "")),
             ("fumbles", dGetD kvs "fumbles" (.str ""))])
        else if position = "RB" ∨ position = "WR" ∨ position = "TE" then
          setKV base "projections" (.dict
            [("rushing_yards", dGetD kvs "rushing_yards" (.str "")),
             ("rushing_touchdowns", dGetD kvs "rushing_touchdowns" (.str "")),
             ("receiving_yards", dGetD kvs "receiving_yards" (.str "")),
             ("receiving_touchdowns", dGetD kvs "receiving_touchdowns" (.str "")),
             ("receptions", dGetD kvs "receptions" (.str "")),
             ("fumbles", dGetD kvs "fumbles" (.str ""))])
        else if position = "K" then
          setKV base "projections" (.dict
            [("field_goals", dGetD kvs "field_goals" (.str "")),
             ("extra_points", dGetD kvs "extra_points" (.str "")),
             ("field_goal_attempts", dGetD kvs "field_goal_attempts" (.str ""))])
        else if position = "DEF" then
          setKV base "projections" (.dict
            [("sacks", dGetD kvs "sacks" (.str "")),
             ("interceptions", dGetD kvs "interceptions" (.str "")),
             ("fumble_recoveries", dGetD kvs "fumble_recoveries" (.str "")),
             ("defensive_touchdowns", dGetD kvs "defensive_touchdowns" (.str ""))])
        else base
      some (.dict withProj)
  | _ => Option.none

/-- `_process_large_player_list_chunked_draft_projections`: the 75-wide
chunk windows enumerate with `start=i+1`, so the ranks form one flat
enumeration; the body cannot raise on a `Val`, making the handler (which
would fall back to the first 30 players) unreachable. -/
def processLargePlayerListChunkedDraftProjections (ps : List Val) (position : String) : List Val :=
  enumFilterMap (draftChunkPlayer position) 1 ps

def draftPositionsLoop : List (String × Val) → List (String × Val) → List (String × Val)
  | [], acc => acc
  | (position, players) :: rest, acc =>
      match players with
      | .list (p :: ps) =>
          let l := p :: ps
          let posData :=
            if position = "K" then enumFilterMap (draftKPlayer position) 1 l
            else if 30 < l.length then processLargePlayerListChunkedDraftProjections l position
            else enumFilterMap (draftDirectPlayer position) 1 l
          draftPositionsLoop rest (setKV acc position (.dict
            [("count", .int (l.length : Int)), ("all_players", .list posData)]))
      | _ => draftPositionsLoop rest acc

def draftProjBody (v : Val) : Except String Val := do
  if v.truthy = false then
    pure (.dict [("summary", .str "No draft projections data available")])
  else if (← pyInStr "projections" v) then do
    let projsV ← pyGetItem v "projections"
    let season ← pyGet v "season" (.str "Unknown")
    let items ← pyItems projsV
    pure (.dict [("season", season), ("positions", .dict (draftPositionsLoop items []))])
  else
    pure (summarizeFantasyRankings v)

def summarizeDraftProjections (v : Val) : Val :=
  match draftProjBody v with
  | .ok r => r
  | .error e =>
      .dict [("summary", .str "Draft projections data available but could not be summarized"),
             ("error", .str e)]

/-! ## `_summarize_depth_charts` (lines 1182-1305) -/

/-- `str.isupper()` (ASCII fragment): some cased character, and no cased
character is lower-case. -/
def pyIsUpper (s : String) : Bool :=
  s.data.any Char.isAlpha && s.data.all (fun c => !c.isAlpha || c.isUpper)

def depthPlayerName (p : Val) : Val :=
  match p with
  | .dict kvs => dGetD kvs "name" (.str "")
  | _ => .str (pyStrOf p)

/-- Collect `positions`: every non-excluded key whose value is a list keeps
its top-3 player names. -/
def depthPositions (kvs : List (String × Val)) (excluded : List String) : List (String × Val) :=
  kvs.foldl (fun acc p =>
    if excluded.contains p.1 then acc
    else
      match p.2 with
      | .list players => setKV acc p.1 (.list ((players.take 3).map depthPlayerName))
      | _ => acc) []

/-- The list branch (lines 1189-1222); lowering the team identifier for the
Detroit debug check raises on a non-string identifier. -/
def depthListLoop : List Val → Except String (List Val)
  | [] => .ok []
  | t :: rest =>
      match t with
      | .dict kvs => do
          let tid := dGetD kvs "team" (dGetD kvs "name" (dGetD kvs "alias" (.str "")))
          let low ← pyLower tid
          let _ := pyStrIn "detroit" low
          let e := Val.dict [("team", tid),
            ("positions", .dict (depthPositions kvs ["team", "name", "alias", "id"]))]
          let r ← depthListLoop rest
          .ok (e :: r)
      | _ => depthListLoop rest

/-- Case 1 (lines 1233-1255): team abbreviations as keys. -/
def depthCase1Loop : List (String × Val) → Nat → List Val → Nat × List Val
  | [], count, teams => (count, teams)
  | (abbr, teamDepth) :: rest, count, teams =>
      match teamDepth with
      | .dict tkvs =>
          depthCase1Loop rest (count + 1) (teams ++
            [.dict [("team", .str abbr), ("positions", .dict (depthPositions tkvs []))]])
      | _ => depthCase1Loop rest count teams

mutual

/-- `_summarize_depth_charts`: total (its `try` wraps the whole body); the
recursive calls (`teams`/`charts` unwrapping, a discovered list of teams)
are on structurally smaller values. -/
def summarizeDepthCharts (v : Val) : Val :=
  match depthBody v with
  | .ok r => r
  | .error e =>
      .dict [("summary", .str "Depth chart data available but could not be summarized"),
             ("error", .str e)]
termination_by (sizeOf v, 1)
decreasing_by
  exact Prod.Lex.right _ (by omega)

def depthBody (v : Val) : Except String Val :=
  match v with
  | .list teams => do
      let entries ← depthListLoop (teams.take 5)
      pure (.dict [("teams_count", .int (teams.length : Int)), ("teams", .list entries)])
  | .dict kvs =>
      if kvs.any (fun p => p.1.length ≤ 3 && pyIsUpper p.1) then
        let (count, teams) := depthCase1Loop kvs 0 []
        .ok (.dict [("teams_count", .int (count : Int)), ("teams", .list teams)])
      else
        match hT : getKV kvs "teams" with
        | some inner => .ok (summarizeDepthCharts inner)
        | Option.none =>
            match hC : getKV kvs "charts" with
            | some inner => .ok (summarizeDepthCharts inner)
            | Option.none => depthCase3 kvs 0 []
  | _ =>
      .ok (.dict [("summary", .str "Depth chart data available but in unexpected format"),
                  ("debug_type", .str ("<class \x27" ++ v.typeName ++ "\x27>"))])
termination_by (sizeOf v, 0)
decreasing_by
  · apply Prod.Lex.left
    have := sizeOf_lt_dict_of_getKV hT
    omega
  · apply Prod.Lex.left
    have := sizeOf_lt_dict_of_getKV hC
    omega
  · apply Prod.Lex.left
    simp only [Val.dict.sizeOf_spec]
    omega

/-- Case 3 (lines 1267-1293): scan the items; a list of dicts is re-processed
as the list branch (early return), a dict value contributes a team summary
when it yields positions. -/
def depthCase3 (items : List (String × Val)) (count : Nat) (teams : List Val) :
    Except String Val :=
  match items with
  | [] => .ok (.dict [("teams_count", .int (count : Int)), ("teams", .list teams)])
  | (key, value) :: rest =>
      let kl := pyLowerStr key
      if isListOrDictB value && !(kl = "metadata" || kl = "status" || kl = "error") then
        match value with
        | .list (x :: xs) =>
            if isDictB x then .ok (summarizeDepthCharts (.list (x :: xs)))
            else depthCase3 rest count teams
        | .dict vkvs =>
            let positions := depthPositions vkvs []
            if positions.isEmpty then depthCase3 rest count teams
            else depthCase3 rest (count + 1) (teams ++
              [.dict [("team", .str key), ("positions", .dict positions)]])
        | _ => depthCase3 rest count teams
      else depthCase3 rest count teams
termination_by (sizeOf items, 2)
decreasing_by
  all_goals apply Prod.Lex.left
  all_goals simp only [List.cons.sizeOf_spec, Prod.mk.sizeOf_spec, Val.list.sizeOf_spec]
  all_goals omega

end

/-! ## Mention prioritizers (lines 1878-2192)

None of these functions has a `try/except`; any exception they raise (for
example lowering a non-string name) propagates to the caller. -/

def mentionTokens (m : String) : List String := pySplitWs (pyLowerStr m)

/-- `any(part in player_name for part in mentioned_parts if len(part) > 2)`
over all mentioned players (the source breaks at the first hit; `any` is
equivalent). -/
def mentionMatch (ms : List String) (playerName : String) : Bool :=
  ms.any fun m => (mentionTokens m).any fun part => 2 < part.length && pyStrIn part playerName

/-- `player.get("name", player.get("display_name", "")).lower()` (the inner
default is evaluated first, as Python does). -/
def extractPlayerNameLower (p : Val) : Except String String := do
  let d ← pyGet p "display_name" (.str "")
  let nv ← pyGet p "name" d
  pyLower nv

/-- The first pass of `_prioritize_players_in_list` (lines 2099-2121):
non-dict records go to the remaining partition, dict records are matched
against the mentions. -/
def ppFirstPass (ms : List String) : List Val → Except String (List Val × List Val)
  | [] => .ok (([], []))
  | p :: rest =>
      match p with
      | .dict kvs => do
          let low ← extractPlayerNameLower (.dict kvs)
          let (pr, rm) ← ppFirstPass ms rest
          if mentionMatch ms low then .ok ((Val.dict kvs :: pr, rm))
          else .ok ((pr, Val.dict kvs :: rm))
      | _ => do
          let (pr, rm) ← ppFirstPass ms rest
          .ok ((pr, p :: rm))

/-- `_prioritize_players_in_list` (lines 2084-2130); the `context` argument
is only used by debug prints. -/
def prioritizePlayersInList (ps : List Val) (ms : List String) (context : String) :
    Except String (List Val) :=
  if ps.isEmpty || ms.isEmpty then .ok ps
  else do
    let (pr, rm) ← ppFirstPass ms ps
    .ok (pr ++ pySliceTo rm (30 - (pr.length : Int)))

/-- Case 1 of `_prioritize_mentioned_players_in_fantasy_rankings`
(lines 2057-2064). -/
def pfCase1Loop (ms : List String) (et : String) :
    List (String × Val) → List (String × Val) → Except String (List (String × Val))
  | [], acc => .ok acc
  | (position, players) :: rest, acc =>
      match players with
      | .list ps =>
          if position = "season" ∨ position = "metadata" then pfCase1Loop ms et rest acc
          else do
            let pr ← prioritizePlayersInList ps ms (et ++ "_" ++ position)
            pfCase1Loop ms et rest (setKV acc position (.list pr))
      | _ => pfCase1Loop ms et rest acc

/-- `_prioritize_mentioned_players_in_fantasy_rankings` (lines 2030-2082). -/
def prioritizeFantasy (v : Val) (ms : List String) (et : String) : Except String Val :=
  if ms.isEmpty || v.truthy = false then .ok v
  else
    match v with
    | .list xs => do
        let r ← prioritizePlayersInList xs ms et
        .ok (.list r)
    | .dict kvs =>
        if posKeys.any (hasKey kvs) then do
          let out ← pfCase1Loop ms et kvs kvs
          .ok (.dict out)
        else
          match getKV kvs "players" with
          | some (.list ps) => do
              let r ← prioritizePlayersInList ps ms et
              .ok (.dict (setKV kvs "players" (.list r)))
          | _ =>
              match getKV kvs "players_sample" with
              | some (.list ps) => do
                  let r ← prioritizePlayersInList ps ms et
                  .ok (.dict (setKV kvs "players_sample" (.list r)))
              | _ =>
                  match hD : getKV kvs "data" with
                  | some inner => do
                      let r ← prioritizeFantasy inner ms et
                      .ok (.dict (setKV kvs "data" r))
                  | Option.none => .ok (.dict kvs)
    | _ => .ok v
termination_by sizeOf v
decreasing_by
  exact sizeOf_lt_dict_of_getKV hD

/-- The per-position first pass of `_prioritize_mentioned_players_in_ros`
(lines 1904-1922): non-dict records are dropped (`continue`), not kept. -/
def rosFirstPass (ms : List String) : List Val → Except String (List Val × List Val)
  | [] => .ok (([], []))
  | p :: rest =>
      match p with
      | .dict kvs => do
          let low ← pyLower (dGetD kvs "name" (.str ""))
          let (pr, rm) ← rosFirstPass ms rest
          if mentionMatch ms low then .ok ((Val.dict kvs :: pr, rm))
          else .ok ((pr, Val.dict kvs :: rm))
      | _ => rosFirstPass ms rest

def prioritizeRosLoop (ms : List String) :
    List (String × Val) → List (String × Val) → Except String (List (String × Val))
  | [], acc => .ok acc
  | (position, players) :: rest, acc =>
      match players with
      | .list ps =>
          if position = "season" ∨ position = "metadata" then prioritizeRosLoop ms rest acc
          else do
            let (pr, rm) ← rosFirstPass ms ps
            let combined := pr ++ pySliceTo rm (15 - (pr.length : Int))
            prioritizeRosLoop ms rest (setKV acc position (.list combined))
      | _ => prioritizeRosLoop ms rest acc

/-- `_prioritize_mentioned_players_in_ros` (lines 1878-1933). -/
def prioritizeMentionedPlayersInRos (v : Val) (ms : List String) : Except String Val :=
  match v with
  | .dict kvs =>
      if ms.isEmpty then .ok v
      else do
        let out ← prioritizeRosLoop ms kvs kvs
        .ok (.dict out)
  | _ => .ok v

/-- The per-position first pass of
`_prioritize_mentioned_players_in_draft_projections` (lines 1978-2008). -/
def draftFirstPass (ms : List String) : List Val → Except String (List Val × List Val)
  | [] => .ok (([], []))
  | p :: rest =>
      match p with
      | .dict kvs => do
          let low ← pyLower (dGetD kvs "name" (.str ""))
          let (pr, rm) ← draftFirstPass ms rest
          if mentionMatch ms low then .ok ((Val.dict kvs :: pr, rm))
          else .ok ((pr, Val.dict kvs :: rm))
      | _ => draftFirstPass ms rest

def draftPosLoop (ms : List String) :
    List (String × Val) → List (String × Val) → Except String (List (String × Val))
  | [], acc => .ok acc
  | (position, positionData) :: rest, acc =>
      match positionData with
      | .dict pdk =>
          match getKV pdk "all_players" with
          | some (.list players) => do
              let (pr, rm) ← draftFirstPass ms players
              let maxP : Nat :=
                if position = "K" ∧ pr ≠ [] then players.length
                else if pr ≠ [] then 30 else 20
              let combined := pr ++ pySliceTo rm ((maxP : Int) - (pr.length : Int))
              draftPosLoop ms rest (setKV acc position
                (.dict (setKV pdk "all_players" (.list combined))))
          | some _ => draftPosLoop ms rest (setKV acc position (.dict pdk))
          | Option.none => draftPosLoop ms rest (setKV acc position (.dict pdk))
      | _ => draftPosLoop ms rest (setKV acc position positionData)

/-- `_prioritize_mentioned_players_in_draft_projections` (lines 1935-2028). -/
def prioritizeMentionedPlayersInDraftProjections (v : Val) (ms : List String) :
    Except String Val :=
  match v with
  | .dict kvs =>
      if ms.isEmpty then .ok v
      else if hasKey kvs "positions" then do
        let posV ← pyGetItem (.dict kvs) "positions"
        let items ← pyItems posV
        let mp ← draftPosLoop ms items []
        .ok (.dict (setKV kvs "positions" (.dict mp)))
      else .ok (.dict kvs)
  | _ => .ok v

/-- The team matcher of `_prioritize_mentioned_teams_in_standings`
(lines 2165-2180). -/
def standTeamFirstPass (mt : List String) : List Val → Except String (List Val × List Val)
  | [] => .ok (([], []))
  | team :: rest => do
      let tnV ← pyGet team "name" (.str "")
      let tn ← pyLower tnV
      let taV ← pyGet team "alias" (.str "")
      let ta ← pyLower taV
      let matched := mt.any fun m =>
        let ml := pyLowerStr m
        pyStrIn ml tn || pyStrIn ml ta || pyStrIn tn ml || pyStrIn ta ml
      let (pr, rm) ← standTeamFirstPass mt rest
      if matched then .ok ((team :: pr, rm)) else .ok ((pr, team :: rm))

def standDivision (mt : List String) (division : Val) : Except String Val := do
  let dkvs ← pyCopy division
  let teamsV ← pyGet division "teams" (.list [])
  let teams ← pyIter teamsV
  let (pr, rm) ← standTeamFirstPass mt teams
  .ok (.dict (setKV dkvs "teams" (.list (pr ++ rm))))

def standConference (mt : List String) (conference : Val) : Except String Val := do
  let ckvs ← pyCopy conference
  let divsV ← pyGet conference "divisions" (.list [])
  let divs ← pyIter divsV
  let ds ← divs.mapM (standDivision mt)
  .ok (.dict (setKV ckvs "divisions" (.list ds)))

/-- `_prioritize_mentioned_teams_in_standings` (lines 2132-2192). -/
def prioritizeMentionedTeamsInStandings (v : Val) (mt : List String) : Except String Val :=
  match v with
  | .dict kvs =>
      if mt.isEmpty then .ok v
      else if hasKey kvs "conferences" then do
        let cv ← pyGetItem (.dict kvs) "conferences"
        let cs ← pyIter cv
        let rs ← cs.mapM (standConference mt)
        .ok (.dict (setKV kvs "conferences" (.list rs)))
      else .ok (.dict kvs)
  | _ => .ok v

/-! ## `_summarize_context_data` (lines 308-473)

The two `data.get(...)` calls of lines 315-316 run before the `try`; they
raise only when `data` is not a dict.  Everything else — every category
step — is inside the `try`, whose handler returns the single top-level
fallback object `{"summary": ..., "error": str(e)}`. -/

/-- One `if key in data: summarized[out] = f(data[key])` step. -/
def scdStepE (kvs : List (String × Val)) (inKey outKey : String)
    (f : Val → Except String Val) (acc : List (String × Val)) :
    Except String (List (String × Val)) :=
  if hasKey kvs inKey then do
    let r ← f ((getKV kvs inKey).getD .none)
    pure (setKV acc outKey r)
  else pure acc

/-- A step whose summarizer is applied per team code:
`for team_code, x in data[key].items(): summarized[out][team_code] = f(x)`. -/
def scdMapStep (kvs : List (String × Val)) (inKey outKey : String)
    (f : Val → Except String Val) (acc : List (String × Val)) :
    Except String (List (String × Val)) :=
  if hasKey kvs inKey then do
    let items ← pyItems ((getKV kvs inKey).getD .none)
    let entries ← items.mapM (fun p => do
      let r ← f p.2
      pure ((p.1, r)))
    pure (setKV acc outKey (.dict entries))
  else pure acc

/-- A category handled with player prioritization when mentions exist
(`draft_rankings`, `weekly_rankings`, `ros_projections`,
`draft_projections`). -/
def scdPrioStep (kvs : List (String × Val)) (key : String) (mp : List String)
    (prio : Val → List String → Except String Val) (summ : Val → Val)
    (acc : List (String × Val)) : Except String (List (String × Val)) :=
  if hasKey kvs key then do
    let raw := (getKV kvs key).getD .none
    let r ←
      if mp ≠ [] then do
        let p ← prio raw mp
        pure (summ p)
      else pure (summ raw)
    pure (setKV acc key r)
  else pure acc

def scdFallbackText : String :=
  "According to the Fantasy Nerds data, the NFL analytics show comprehensive information about players, teams, and statistics across the league."

/-- The `try` body of `_summarize_context_data`: the category steps in
source order (`mentioned_teams` is accepted by the Python function but
never used in its body). -/
def scdBody (kvs : List (String × Val)) (mp : List String) :
    Except String Val := do
  let s0 : List (String × Val) :=
    [("query_type", dGetD kvs "query_type" (.str "unknown")),
     ("metadata", dGetD kvs "metadata" (.dict []))]
  let s1 ← scdStepE kvs "league" "league_structure" summarizeLeagueStructure s0
  let s2 ← scdStepE kvs "standings" "standings" summarizeStandingsData s1
  let s3 ← scdStepE kvs "schedule" "schedule" (fun v => .ok (summarizeScheduleData v)) s2
  let s4 ← scdMapStep kvs "team_profiles" "team_profiles"
      (fun v => .ok (summarizeTeamProfile v)) s3
  let s5 ← scdStepE kvs "injuries" "injuries" (fun v => .ok (summarizeInjuryData v)) s4
  let s6 ← scdMapStep kvs "team_injuries" "team_injuries" summarizeTeamInjuries s5
  let s7 ← scdStepE kvs "relevant_games" "relevant_games" (fun v => .ok (summarizeGames v)) s6
  let s8 ← scdMapStep kvs "team_games" "team_games" (fun v => .ok (summarizeGames v)) s7
  let s9 ← scdStepE kvs "boxscore" "boxscore" summarizeBoxscore s8
  let s10 ← scdPrioStep kvs "draft_rankings" mp
      (fun v ms => prioritizeFantasy v ms "draft_rankings") summarizeFantasyRankings s9
  let s11 ← scdPrioStep kvs "weekly_rankings" mp
      (fun v ms => prioritizeFantasy v ms "weekly_rankings") summarizeFantasyRankings s10
  let s12 ← scdPrioStep kvs "ros_projections" mp
      prioritizeMentionedPlayersInRos summarizeRosProjections s11
  let s13 ← scdStepE kvs "news" "news" (fun v => .ok (summarizeNewsData v)) s12
  let s14 ← scdStepE kvs "adp" "adp" (fun v => .ok (summarizeFantasyRankings v)) s13
  let s15 ← scdStepE kvs "player_tiers" "player_tiers"
      (fun v => .ok (summarizeFantasyRankings v)) s14
  let s16 ← scdStepE kvs "auction_values" "auction_values"
      (fun v => .ok (summarizeFantasyRankings v)) s15
  let s17 ← scdStepE kvs "best_ball" "best_ball"
      (fun v => .ok (summarizeFantasyRankings v)) s16
  let s18 ← scdStepE kvs "dynasty" "dynasty"
      (fun v => .ok (summarizeFantasyRankings v)) s17
  let s19 ← scdStepE kvs "fantasy_leaders" "fantasy_leaders"
      (fun v => .ok (summarizeFantasyRankings v)) s18
  let s20 ← scdStepE kvs "players" "players" (fun v => .ok (summarizePlayersData v)) s19
  let s21 ←
    if hasKey kvs "depth" then
      scdStepE kvs "depth" "depth" (fun v => .ok (summarizeDepthCharts v)) s20
    else
      scdStepE kvs "depth_charts" "depth" (fun v => .ok (summarizeDepthCharts v)) s20
  let s22 ← scdStepE kvs "weekly_projections" "weekly_projections"
      (fun v => .ok (summarizeFantasyRankings v)) s21
  let s23 ← scdStepE kvs "player_details" "player_details"
      (fun v => .ok (summarizePlayerDetails v)) s22
  let s24 ← scdStepE kvs "defense_rankings" "defense_rankings"
      (fun v => .ok (summarizeFantasyRankings v)) s23
  let s25 ← scdStepE kvs "bye_weeks" "bye_weeks" (fun v => .ok (summarizeByeWeeks v)) s24
  let s26 ← scdStepE kvs "add_drops" "add_drops" (fun v => .ok (summarizeAddDrops v)) s25
  let s27 ← scdStepE kvs "weather" "weather" (fun v => .ok (summarizeWeatherData v)) s26
  let s28 ← scdPrioStep kvs "draft_projections" mp
      prioritizeMentionedPlayersInDraftProjections summarizeDraftProjections s27
  let s29 ← scdStepE kvs "dfs" "dfs" (fun v => .ok (summarizeDfsData v)) s28
  let s30 ← scdStepE kvs "dfs_slates" "dfs_slates" (fun v => .ok (summarizeDfsSlates v)) s29
  let s31 ← scdStepE kvs "idp_draft" "idp_draft"
      (fun v => .ok (summarizeFantasyRankings v)) s30
  let s32 ← scdStepE kvs "idp_weekly" "idp_weekly"
      (fun v => .ok (summarizeFantasyRankings v)) s31
  let s33 ← scdStepE kvs "nfl_picks" "nfl_picks" (fun v => .ok (summarizeNflPicks v)) s32
  pure (.dict s33)

/-- `_summarize_context_data`.  For a dict bundle it always returns a value:
the summarized categories, or — when any step inside the `try` raises — the
single top-level fallback object.  For a non-dict bundle the pre-`try`
`data.get` raises out of the function. -/
def summarizeContextData (data : Val) (mp mt : List String) : Except String Val :=
  match data with
  | .dict kvs =>
      .ok (match scdBody kvs mp with
        | .ok v => v
        | .error e => .dict [("summary", .str scdFallbackText), ("error", .str e)])
  | _ => .error ("\x27" ++ data.typeName ++ "\x27 object has no attribute \x27get\x27")

/-! ## Budget enforcement in `generate_response` (lines 126-218)

`context_str = json.dumps(summarized_data, indent=2)`; if it exceeds the
50,000-character budget, a reduced `essential_data` object is built
(`query_type` + a metadata note + at most one high-value category, with
mention prioritization applied where applicable) and re-serialized; if that
is still over budget the string is hard-truncated at the boundary and the
fixed marker is appended.  `context_obj = json.loads(context_str)` is
modelled as the summarized value itself (`json.loads` inverts `json.dumps`
on this value fragment). -/

def maxContextSize : Nat := 50000

def truncationMarker : String :=
  "...[additional data available - query for specific players]"

/-- The debug block of lines 153-164: it only reads, but its reads can
raise (`player.get("name", "").lower()` on malformed entries); the scan for
one mention stops at the first match (`break`). -/
def debugRosScan (m : String) : List Val → Except String Bool
  | [] => .ok false
  | player :: rest => do
      let nv ← pyGet player "name" (.str "")
      let low ← pyLower nv
      if (pySplitWs m).any (fun name => pyStrIn (pyLowerStr name) low) then .ok true
      else debugRosScan m rest

def debugRosCheck (essentialRos : Val) (mp : List String) : Except String Unit :=
  if mp ≠ [] then do
    let hasRB ← pyInStr "RB" essentialRos
    if hasRB then do
      let rbPlayers ← pyGetItem essentialRos "RB"
      let sl ← pySliceVal rbPlayers 20
      let ps ← pyIter sl
      let _ ← mp.mapM (fun m => debugRosScan m ps)
      pure ()
    else pure ()
  else pure ()

/-- The fixed fallback priority list of line 189. -/
def essentialKeys : List String :=
  ["ros_projections", "draft_projections", "draft_rankings", "weekly_rankings",
   "dynasty", "best_ball", "adp", "player_tiers", "auction_values"]

def playerPrioShort : List String :=
  ["weekly_rankings", "dynasty", "best_ball", "adp", "player_tiers", "auction_values"]

def teamPrioShort : List String := ["standings", "league", "teams"]

/-- The `for key in [...]` fallback of lines 188-210: the first present key
is kept (with player or team prioritization as applicable) and the loop
breaks. -/
def essentialLoop (ctxKvs : List (String × Val)) (mp mt : List String) :
    List String → List (String × Val) → Except String (List (String × Val))
  | [], acc => .ok acc
  | key :: rest, acc =>
      if hasKey ctxKvs key then do
        let raw := (getKV ctxKvs key).getD .none
        let v ←
          if mp ≠ [] ∧ key ∈ playerPrioShort then prioritizeFantasy raw mp key
          else if mt ≠ [] ∧ key ∈ teamPrioShort then
            (if key = "standings" then prioritizeMentionedTeamsInStandings raw mt
             else pure raw)
          else pure raw
        .ok (setKV acc key v)
      else essentialLoop ctxKvs mp mt rest acc

/-- Lines 133-211: derive `essential_data` from the (re-parsed) context
object. -/
def buildEssential (ctx : Val) (mp mt : List String) : Except String Val := do
  let qt ← pyGet ctx "query_type" (.str "")
  let e0 : List (String × Val) :=
    [("query_type", qt),
     ("metadata", .dict [("note", .str "Comprehensive dataset - metadata truncated for space")])]
  let ctxKvs ← pyItems ctx
  if qt = .str "ros_projections" ∧ hasKey ctxKvs "ros_projections" then do
    let raw := (getKV ctxKvs "ros_projections").getD .none
    let v ← if mp ≠ [] then prioritizeMentionedPlayersInRos raw mp else pure raw
    let _ ← debugRosCheck v mp
    pure (.dict (setKV e0 "ros_projections" v))
  else if qt = .str "draft_projections" ∧ hasKey ctxKvs "draft_projections" then do
    let raw := (getKV ctxKvs "draft_projections").getD .none
    let v ← if mp ≠ [] then prioritizeMentionedPlayersInDraftProjections raw mp else pure raw
    pure (.dict (setKV e0 "draft_projections" v))
  else do
    let drIsSample ←
      if hasKey ctxKvs "draft_rankings" then
        pyInStr "players_sample" ((getKV ctxKvs "draft_rankings").getD .none)
      else pure false
    if drIsSample then do
      let raw := (getKV ctxKvs "draft_rankings").getD .none
      let v ← if mp ≠ [] then prioritizeFantasy raw mp "draft_rankings" else pure raw
      pure (.dict (setKV e0 "draft_rankings" v))
    else do
      let out ← essentialLoop ctxKvs mp mt essentialKeys e0
      pure (.dict out)

/-- Lines 126-217: serialize, and on budget overflow reduce and, as a last
resort, hard-truncate and append the marker. -/
def prepareContext (summarized : Val) (mp mt : List String) : Except String (List Char) := do
  let s := dumps summarized
  if maxContextSize < s.length then do
    let essential ← buildEssential summarized mp mt
    let s2 := dumps essential
    if maxContextSize < s2.length then
      pure (s2.take maxContextSize ++ truncationMarker.data)
    else pure s2
  else pure s

/-- The serialized context string that `generate_response` appends to the
request messages for a given raw bundle (summarization followed by budget
enforcement). -/
def contextString (data : Val) (mp mt : List String) : Except String (List Char) := do
  let summarized ← summarizeContextData data mp mt
  prepareContext summarized mp mt

/-! # Theorems

Helper lemmas first, then one theorem per claim (with witnesses and
counterexamples where required). -/

theorem pySliceTo_sublist (xs : List α) (k : Int) : (pySliceTo xs k).Sublist xs := by
  unfold pySliceTo
  split <;> exact List.take_sublist _ _

theorem pySliceTo_length_le (xs : List α) (k : Int) (h : 0 ≤ k) :
    (pySliceTo xs k).length ≤ k.toNat := by
  unfold pySliceTo
  rw [if_pos h]
  simp [List.length_take]

/-! ### C3: the response cache -/

theorem cacheFind_cacheStore (c : LlmCache) (k : String) (t : Int) (v : String) :
    cacheFind (cacheStore c k t v) k = some ((t, v)) := by
  induction c with
  | nil => simp [cacheStore, cacheFind]
  | cons p rest ih =>
      obtain ⟨k₁, e₁⟩ := p
      by_cases hk : k₁ = k
      · simp [cacheStore, cacheFind, hk]
      · simp [cacheStore, cacheFind, hk, ih]

/-- Claim C3: for the response cache keyed by the fingerprint, storing a
response for fingerprint `k` at time `t` and reading `k` at time `t'`
returns exactly the stored response when `t' - t` is below the 600-second
TTL, and is a miss when `t' - t` is at least 600 seconds. -/
theorem cache_ttl_correct (c : LlmCache) (k : String) (t t' : Int) (v : String) :
    cacheRead (cacheStore c k t v) k t' =
      if t' - t < 600 then some v else Option.none := by
  unfold cacheRead
  rw [cacheFind_cacheStore]
  rfl

/-! ### C4 and C5: `_prioritize_players_in_list` -/

/-- The mention predicate the first pass computes for a record whose name
extraction succeeds. -/
def isMentionedRecord (ms : List String) (p : Val) : Bool :=
  match extractPlayerNameLower p with
  | .ok low => mentionMatch ms low
  | .error _ => false

theorem ppFirstPass_eq (ms : List String) (ps : List Val)
    (hok : ∀ p ∈ ps, (extractPlayerNameLower p).isOk = true) :
    ppFirstPass ms ps =
      .ok ((ps.filter (isMentionedRecord ms),
            ps.filter (fun p => !isMentionedRecord ms p))) := by
  induction ps with
  | nil => simp [ppFirstPass]
  | cons p rest ih =>
      have hpok := hok p (List.mem_cons_self p rest)
      have hrest : ∀ q ∈ rest, (extractPlayerNameLower q).isOk = true :=
        fun q hq => hok q (List.mem_cons_of_mem _ hq)
      have ihr := ih hrest
      cases p with
      | dict kvs =>
          obtain ⟨low, hlow⟩ : ∃ low, extractPlayerNameLower (.dict kvs) = .ok low := by
            cases hE : extractPlayerNameLower (.dict kvs) with
            | ok l => exact ⟨l, rfl⟩
            | error e => rw [hE] at hpok; simp [Except.isOk, Except.toBool] at hpok
          have hmr : isMentionedRecord ms (Val.dict kvs) = mentionMatch ms low := by
            simp [isMentionedRecord, hlow]
          rw [ppFirstPass, hlow, ihr]
          by_cases hm : mentionMatch ms low = true
          · simp [Bind.bind, Except.bind, hm, hmr, List.filter_cons]
          · simp only [Bool.not_eq_true] at hm
            simp [Bind.bind, Except.bind, hm, hmr, List.filter_cons]
      | none => simp [extractPlayerNameLower, pyGet, Bind.bind, Except.bind, Except.isOk, Except.toBool] at hpok
      | bool b => simp [extractPlayerNameLower, pyGet, Bind.bind, Except.bind, Except.isOk, Except.toBool] at hpok
      | int n => simp [extractPlayerNameLower, pyGet, Bind.bind, Except.bind, Except.isOk, Except.toBool] at hpok
      | str s => simp [extractPlayerNameLower, pyGet, Bind.bind, Except.bind, Except.isOk, Except.toBool] at hpok
      | list xs => simp [extractPlayerNameLower, pyGet, Bind.bind, Except.bind, Except.isOk, Except.toBool] at hpok

theorem prioritizePlayersInList_eq (ps : List Val) (ms : List String) (ctx : String)
    (hok : ∀ p ∈ ps, (extractPlayerNameLower p).isOk = true) (hms : ms ≠ []) :
    prioritizePlayersInList ps ms ctx =
      .ok (ps.filter (isMentionedRecord ms) ++
           pySliceTo (ps.filter (fun p => !isMentionedRecord ms p))
             (30 - ((ps.filter (isMentionedRecord ms)).length : Int))) := by
  unfold prioritizePlayersInList
  have hmsb : ms.isEmpty = false := by simpa [List.isEmpty_iff] using hms
  by_cases hps : ps.isEmpty
  · have : ps = [] := by simpa [List.isEmpty_iff] using hps
    subst this
    simp [pySliceTo]
  · simp only [hps, hmsb, Bool.or_self, Bool.false_eq_true, if_false]
    rw [ppFirstPass_eq ms ps hok]
    rfl

/-- Claim C4: for a list of record mappings (each with a usable name field)
and a non-empty mention list, `_prioritize_players_in_list` keeps every
mentioned record, places all mentioned records before all non-mentioned
records, and preserves the relative order inside each partition: the output
is exactly the mentioned records in input order followed by a sublist of
the non-mentioned records in input order. -/
theorem prioritize_mention_preservation (ps : List Val) (ms : List String) (ctx : String)
    (hok : ∀ p ∈ ps, (extractPlayerNameLower p).isOk = true) (hms : ms ≠ []) :
    ∃ rest, prioritizePlayersInList ps ms ctx =
        .ok (ps.filter (isMentionedRecord ms) ++ rest) ∧
      rest.Sublist (ps.filter (fun p => !isMentionedRecord ms p)) ∧
      ∀ p ∈ ps, isMentionedRecord ms p = true →
        p ∈ ps.filter (isMentionedRecord ms) ++ rest := by
  refine ⟨pySliceTo (ps.filter (fun p => !isMentionedRecord ms p))
      (30 - ((ps.filter (isMentionedRecord ms)).length : Int)),
    prioritizePlayersInList_eq ps ms ctx hok hms, pySliceTo_sublist _ _, ?_⟩
  intro p hp hmp
  exact List.mem_append_left _ (List.mem_filter.mpr ⟨hp, hmp⟩)

/-- Witness for C4 at a concrete input: two records, one mentioning
Mahomes. -/
theorem prioritize_mention_preservation_witness :
    ∃ rest,
      prioritizePlayersInList
          [Val.dict [("name", Val.str "Patrick Mahomes")],
           Val.dict [("name", Val.str "Other Guy")]] ["Mahomes"] "weekly_rankings" =
        .ok (List.filter (isMentionedRecord ["Mahomes"])
              [Val.dict [("name", Val.str "Patrick Mahomes")],
               Val.dict [("name", Val.str "Other Guy")]] ++ rest) ∧
      rest.Sublist (List.filter (fun p => !isMentionedRecord ["Mahomes"] p)
              [Val.dict [("name", Val.str "Patrick Mahomes")],
               Val.dict [("name", Val.str "Other Guy")]]) ∧
      ∀ p ∈ [Val.dict [("name", Val.str "Patrick Mahomes")],
             Val.dict [("name", Val.str "Other Guy")]],
        isMentionedRecord ["Mahomes"] p = true →
        p ∈ List.filter (isMentionedRecord ["Mahomes"])
              [Val.dict [("name", Val.str "Patrick Mahomes")],
               Val.dict [("name", Val.str "Other Guy")]] ++ rest :=
  prioritize_mention_preservation
    [Val.dict [("name", Val.str "Patrick Mahomes")],
     Val.dict [("name", Val.str "Other Guy")]] ["Mahomes"] "weekly_rankings"
    (by decide) (by decide)

instance {ε α : Type} [DecidableEq ε] [DecidableEq α] : DecidableEq (Except ε α) := fun x y =>
  match x, y with
  | .ok a, .ok b => decidable_of_iff (a = b) (by simp)
  | .error a, .error b => decidable_of_iff (a = b) (by simp)
  | .ok _, .error _ => isFalse (by simp)
  | .error _, .ok _ => isFalse (by simp)

/-- The record used by the C5 counterexample. -/
def c5Player : Val := Val.dict [("name", Val.str "patrick")]

/-- Counterexample to C5 as stated: 31 records all matching the mention
list produce an output of 31 records, exceeding the 30-record cap (the cap
`remaining_players[:30 - len(prioritized)]` is applied to the remainder
only, and a negative slice bound does not remove mentioned records). -/
theorem prioritize_cap_counterexample :
    prioritizePlayersInList (List.replicate 31 c5Player) ["patrick"] "draft_rankings" =
      .ok (List.replicate 31 c5Player) ∧
    30 < (List.replicate 31 c5Player).length := by
  constructor
  · decide
  · decide

/-- Claim C5 (amended): when at most 30 records match the mention list, the
output of `_prioritize_players_in_list` has at most 30 records.  (Without
that bound the mentioned records are all kept, so the output can exceed the
cap, as the counterexample shows.) -/
theorem prioritize_cap_amended (ps : List Val) (ms : List String) (ctx : String)
    (hok : ∀ p ∈ ps, (extractPlayerNameLower p).isOk = true) (hms : ms ≠ [])
    (hcount : (ps.filter (isMentionedRecord ms)).length ≤ 30) :
    ∃ out, prioritizePlayersInList ps ms ctx = .ok out ∧ out.length ≤ 30 := by
  refine ⟨_, prioritizePlayersInList_eq ps ms ctx hok hms, ?_⟩
  rw [List.length_append]
  have hnn : (0 : Int) ≤ 30 - ((ps.filter (isMentionedRecord ms)).length : Int) := by
    omega
  have hle := pySliceTo_length_le (ps.filter (fun p => !isMentionedRecord ms p))
    (30 - ((ps.filter (isMentionedRecord ms)).length : Int)) hnn
  have htn : (30 - ((ps.filter (isMentionedRecord ms)).length : Int)).toNat =
      30 - (ps.filter (isMentionedRecord ms)).length := by
    omega
  omega

/-- Witness for the amended C5. -/
theorem prioritize_cap_amended_witness :
    ∃ out, prioritizePlayersInList [c5Player] ["patrick"] "adp" = .ok out ∧
      out.length ≤ 30 :=
  prioritize_cap_amended [c5Player] ["patrick"] "adp" (by decide) (by decide) (by decide)

/-! ### C6: chunked large-list processing -/

theorem getKV_setKV_ne (l : List (String × Val)) (k k' : String) (v : Val)
    (h : k' ≠ k) : getKV (setKV l k' v) k = getKV l k := by
  induction l with
  | nil => simp [setKV, getKV, h]
  | cons p rest ih =>
      obtain ⟨k₁, v₁⟩ := p
      by_cases hk : k₁ = k'
      · subst hk
        simp [setKV, getKV, h]
      · simp [setKV, hk, getKV, ih]

/-- The identity field of a produced player summary. -/
def summaryName (s : Val) : Option Val :=
  match s with
  | .dict kvs => getKV kvs "name"
  | _ => Option.none

/-- The identity field of a raw record, as the summarizers extract it
(`display_name` falling back to `name`). -/
def recordName (p : Val) : Val :=
  match p with
  | .dict kvs => dGetD kvs "display_name" (dGetD kvs "name" (.str ""))
  | _ => .str ""

theorem summaryName_mkPlayerSummary (kvs : List (String × Val)) :
    summaryName (mkPlayerSummary kvs) = some (recordName (.dict kvs)) := by
  unfold mkPlayerSummary summaryName recordName
  by_cases h1 : hasKey kvs "standard_points" <;>
  by_cases h2 : hasKey kvs "proj_pts" <;>
  by_cases h3 : hasKey kvs "adp" <;>
  by_cases h4 : hasKey kvs "injury_risk" <;>
    simp [h1, h2, h3, h4, getKV_setKV_ne, getKV]

theorem chunkLoop_eq_aux (n : Nat) :
    ∀ ps : List Val, ps.length ≤ n → chunkLoop ps = ps.filterMap summarizePlayerOpt := by
  induction n with
  | zero =>
      intro ps hle
      have : ps = [] := List.length_eq_zero.mp (Nat.le_zero.mp hle)
      subst this
      rw [chunkLoop]
      simp
  | succ n ih =>
      intro ps hle
      rw [chunkLoop]
      by_cases hps : ps.isEmpty
      · have : ps = [] := by simpa [List.isEmpty_iff] using hps
        subst this
        simp
      · have hne : ps ≠ [] := by simpa [List.isEmpty_iff] using hps
        have hpos : 0 < ps.length := List.length_pos.mpr hne
        have hlt : (ps.drop 150).length ≤ n := by
          simp only [List.length_drop]
          omega
        simp only [hps, dif_neg, Bool.false_eq_true, not_false_iff]
        rw [ih (ps.drop 150) hlt, ← List.filterMap_append, List.take_append_drop]

theorem chunkLoop_eq (ps : List Val) : chunkLoop ps = ps.filterMap summarizePlayerOpt :=
  chunkLoop_eq_aux ps.length ps (Nat.le_refl _)

theorem filterMap_summaryName (ps : List Val) :
    (ps.filterMap summarizePlayerOpt).filterMap summaryName =
      (ps.filter isDictB).map recordName := by
  induction ps with
  | nil => simp
  | cons p rest ih =>
      cases p with
      | dict kvs =>
          simp only [List.filterMap_cons, summarizePlayerOpt, List.filter_cons, isDictB]
          simp [summaryName_mkPlayerSummary, ih]
      | none => simpa [summarizePlayerOpt, isDictB] using ih
      | bool b => simpa [summarizePlayerOpt, isDictB] using ih
      | int n => simpa [summarizePlayerOpt, isDictB] using ih
      | str s => simpa [summarizePlayerOpt, isDictB] using ih
      | list xs => simpa [summarizePlayerOpt, isDictB] using ih

/-- Claim C6: for a flat player list of more than 200 elements, chunked
processing produces one summary per well-formed (dict) input element, in
the original order — the output is exactly the element-wise summary of the
whole list — and the sequence of identity fields of the output equals the
sequence of identity fields of the well-formed input records (hence the
sets coincide; no record is dropped because of chunking). -/
theorem chunked_coverage (ps : List Val) (h : 200 < ps.length) :
    processLargePlayerListChunked ps = ps.filterMap summarizePlayerOpt ∧
    (processLargePlayerListChunked ps).filterMap summaryName =
      (ps.filter isDictB).map recordName := by
  unfold processLargePlayerListChunked
  rw [chunkLoop_eq]
  exact ⟨rfl, filterMap_summaryName ps⟩

/-- Witness for C6 at a concrete 201-element list. -/
theorem chunked_coverage_witness :
    processLargePlayerListChunked (List.replicate 201 c5Player) =
      (List.replicate 201 c5Player).filterMap summarizePlayerOpt ∧
    (processLargePlayerListChunked (List.replicate 201 c5Player)).filterMap summaryName =
      ((List.replicate 201 c5Player).filter isDictB).map recordName :=
  chunked_coverage (List.replicate 201 c5Player) (by rw [List.length_replicate]; omega)

/-! ### C2: `_summarize_context_data` never raises on a dict bundle -/

/-- Claim C2: for every context bundle that is a mapping,
`_summarize_context_data` returns a value and never raises: either the
`try` body succeeds and its summary is returned, or the body raises and the
result is the single top-level fallback object carrying the fixed summary
string and the captured error text. -/
theorem summarize_context_total (kvs : List (String × Val)) (mp mt : List String) :
    ∃ v, summarizeContextData (.dict kvs) mp mt = .ok v ∧
      ((∃ e, scdBody kvs mp = .error e ∧
          v = .dict [("summary", .str scdFallbackText), ("error", .str e)]) ∨
        scdBody kvs mp = .ok v) := by
  cases h : scdBody kvs mp with
  | ok v =>
      refine ⟨v, ?_, Or.inr rfl⟩
      simp [summarizeContextData, h]
  | error e =>
      refine ⟨.dict [("summary", .str scdFallbackText), ("error", .str e)],
        ?_, Or.inl ⟨e, rfl, rfl⟩⟩
      simp [summarizeContextData, h]

/-! ### C7: `_summarize_boxscore` has no local handler -/

def c7BadBoxscore : Val := .dict [("home", .list [.int 0])]

/-- Counterexample to C7 as stated: `_summarize_boxscore` raises on a
malformed input (`home` bound to a list), and when such a boxscore sits in
a bundle the exception is only caught by `_summarize_context_data`'s outer
handler, which replaces the ENTIRE compaction — the well-formed sibling
category `news` is absent from the output. -/
theorem boxscore_raises_counterexample :
    summarizeBoxscore c7BadBoxscore =
      .error "\x27list\x27 object has no attribute \x27get\x27" ∧
    summarizeContextData (.dict [("boxscore", c7BadBoxscore), ("news", .list [])]) [] [] =
      .ok (.dict [("summary", .str scdFallbackText),
                  ("error", .str "\x27list\x27 object has no attribute \x27get\x27")]) := by
  constructor
  · decide
  · decide

/-- Claim C7 (amended): the per-category summarizers other than
`_summarize_boxscore` recover internally, but `_summarize_boxscore` can
raise; its exception escapes to the bundle-level handler of
`_summarize_context_data`, so the whole compaction — including sibling
categories — degrades to the top-level fallback object. -/
theorem boxscore_error_collapses_bundle (b : Val) (e : String) (nv : Val)
    (h : summarizeBoxscore b = .error e) :
    summarizeContextData (.dict [("boxscore", b), ("news", nv)]) [] [] =
      .ok (.dict [("summary", .str scdFallbackText), ("error", .str e)]) := by
  have hbody : scdBody [(("boxscore", b)), (("news", nv))] [] = .error e := by
    unfold scdBody scdStepE scdMapStep scdPrioStep
    simp [hasKey, getKV, h, Bind.bind, Except.bind, pure, Except.pure, dGetD]
  simp [summarizeContextData, hbody]

/-- Witness for the amended C7 at a concrete malformed boxscore. -/
theorem boxscore_error_collapses_bundle_witness :
    summarizeContextData (.dict [("boxscore", c7BadBoxscore), ("news", .str "ignored")]) [] [] =
      .ok (.dict [("summary", .str scdFallbackText),
                  ("error", .str "\x27list\x27 object has no attribute \x27get\x27")]) :=
  boxscore_error_collapses_bundle c7BadBoxscore
    "\x27list\x27 object has no attribute \x27get\x27" (.str "ignored") (by decide)

/-! ### C8: position caps in `_summarize_fantasy_rankings` (code bug) -/

def c8Qb : Val := Val.dict [("name", Val.str "Qback"), ("proj_pts", Val.int 20)]

def c8Rb : Val := Val.dict [("name", Val.str "Runner")]

def c8Input : List (String × Val) :=
  [("QB", .list (List.replicate 40 c8Qb)), ("RB", .list (List.replicate 40 c8Rb))]

def valListLength : Val → Nat
  | .list l => l.length
  | _ => 0

/-- Claim C8 (code bug): on a position-keyed mapping
`_summarize_fantasy_rankings` returns `None` — Case 1 (lines 962-985)
builds exactly the capped summary the claim describes (25 for `QB`, 15 for
any other position, shown here for the constructed-but-discarded value
`frCase1Aux`) and then falls off the end of the branch without a `return`
statement, so every position-keyed ranking is silently discarded. -/
theorem position_caps_code_bug :
    summarizeFantasyRankings (.dict c8Input) = Val.none ∧
    (frCase1Aux c8Input []).map (fun p => ((p.1, valListLength p.2))) =
      [("QB", 25), ("RB", 15)] := by
  constructor
  · unfold summarizeFantasyRankings
    simp [c8Input, Val.truthy, posKeys, hasKey]
  · decide

/-! ### C9: fallback phrasing of `_summarize_draft_projections` -/

/-- Counterexample to C9 as stated: on an empty input
`_summarize_draft_projections` returns the summary
`"No draft projections data available"` — data-unavailability phrasing, not
domain-generic filler text. -/
theorem draft_projections_empty_counterexample :
    summarizeDraftProjections (.dict []) =
      .dict [("summary", .str "No draft projections data available")] := by
  decide

/-- Claim C9 (amended): `_summarize_fantasy_rankings` on an empty input
returns the domain-generic filler text (which opens with "According to the
Fantasy Nerds data" and contains no "data available" phrasing), but
`_summarize_draft_projections` on an empty input returns a summary that
says the data is unavailable. -/
theorem fallback_phrasing_amended :
    summarizeDraftProjections (.dict []) =
      .dict [("summary", .str "No draft projections data available")] ∧
    summarizeFantasyRankings (.dict []) = .dict [("summary", .str frEmptyText)] ∧
    pyStrIn "According to the Fantasy Nerds data" frEmptyText = true ∧
    pyStrIn "data available" frEmptyText = false ∧
    pyStrIn "data available" "No draft projections data available" = true := by
  refine ⟨by decide, ?_, by decide, by decide, by decide⟩
  unfold summarizeFantasyRankings
  simp [Val.truthy]

/-! ### C1 and C10: budget enforcement -/


theorem escChar_a : escChar 'a' = ['a'] := by decide

theorem escString_replicate (n : Nat) :
    escString (List.replicate n 'a') = List.replicate n 'a' := by
  induction n with
  | zero => rfl
  | succ n ih =>
      rw [List.replicate_succ]
      simp only [escString, List.flatMap_cons] at ih ⊢
      rw [ih, escChar_a]
      rfl

def aStr (n : Nat) : String := ⟨List.replicate n 'a'⟩

theorem aStr_data (n : Nat) : (aStr n).data = List.replicate n 'a' := rfl

theorem dumps_sv_len (n : Nat) :
    (dumps (.dict [("adp", .str (aStr n))])).length = n + 15 := by
  simp [dumps, dumpsAt, dumpsKvs, quoteStr, indentChars, aStr_data,
    escString_replicate, List.length_append, List.length_replicate,
    show escString "adp".data = "adp".data from by decide,
    show ("adp".data).length = 3 from by decide]

def noteText : String := "Comprehensive dataset - metadata truncated for space"

def svOf (n : Nat) : Val := .dict [("adp", .str (aStr n))]

def evOf (n : Nat) : Val :=
  .dict [("query_type", .str ""), ("metadata", .dict [("note", .str noteText)]),
         ("adp", .str (aStr n))]

theorem buildEssential_svOf (n : Nat) : buildEssential (svOf n) [] [] = .ok (evOf n) := by
  simp [svOf, evOf, noteText, buildEssential, pyGet, pyItems, dGetD, getKV, hasKey,
    essentialKeys, essentialLoop, playerPrioShort, teamPrioShort, setKV,
    Bind.bind, Except.bind, pure, Except.pure]

theorem dumps_evOf_len (n : Nat) : (dumps (evOf n)).length = n + 123 := by
  simp [evOf, noteText, dumps, dumpsAt, dumpsKvs, quoteStr, indentChars, aStr_data,
    escString_replicate, List.length_append, List.length_replicate,
    show escString "adp".data = "adp".data from by decide,
    show ("adp".data).length = 3 from by decide,
    show escString "query_type".data = "query_type".data from by decide,
    show ("query_type".data).length = 10 from by decide,
    show escString "metadata".data = "metadata".data from by decide,
    show ("metadata".data).length = 8 from by decide,
    show escString "note".data = "note".data from by decide,
    show ("note".data).length = 4 from by decide,
    show escString "".data = "".data from by decide,
    show ("".data).length = 0 from by decide,
    show escString "Comprehensive dataset - metadata truncated for space".data = "Comprehensive dataset - metadata truncated for space".data from by decide,
    show ("Comprehensive dataset - metadata truncated for space".data).length = 52 from by decide]

def bundleOf (n : Nat) : Val :=
  .dict [("query_type", .str "x"), ("adp", .list [.dict [("name", .str (aStr n))]])]

def pSummaryOf (n : Nat) : Val :=
  .dict [("id", .str ""), ("name", .str (aStr n)), ("team", .str ""),
         ("position", .str ""), ("rank", .int 0), ("bye_week", .str "")]

def summarizedOf (n : Nat) : Val :=
  .dict [("query_type", .str "x"), ("metadata", .dict []),
         ("adp", .list [pSummaryOf n])]

theorem fr_single (n : Nat) :
    summarizeFantasyRankings (.list [.dict [("name", .str (aStr n))]]) =
      .list [pSummaryOf n] := by
  unfold summarizeFantasyRankings
  simp [Val.truthy, pSummaryOf, summarizePlayerOpt, mkPlayerSummary, hasKey, dGetD, getKV,
    setKV, processLargePlayerListChunked]

theorem scd_bundleOf (n : Nat) :
    summarizeContextData (bundleOf n) [] [] = .ok (summarizedOf n) := by
  simp [bundleOf, summarizedOf, summarizeContextData, scdBody, scdStepE, scdMapStep,
    scdPrioStep, hasKey, getKV, dGetD, setKV, fr_single,
    Bind.bind, Except.bind, pure, Except.pure]

def essentialOf (n : Nat) : Val :=
  .dict [("query_type", .str "x"), ("metadata", .dict [("note", .str noteText)]),
         ("adp", .list [pSummaryOf n])]

theorem be_summarizedOf (n : Nat) :
    buildEssential (summarizedOf n) [] [] = .ok (essentialOf n) := by
  simp [summarizedOf, essentialOf, noteText, pSummaryOf, buildEssential, pyGet, pyItems,
    dGetD, getKV, hasKey, essentialKeys, essentialLoop, playerPrioShort, teamPrioShort,
    setKV, Bind.bind, Except.bind, pure, Except.pure]

theorem dumps_summarizedOf_len (n : Nat) : (dumps (summarizedOf n)).length = n + 181 := by
  simp [summarizedOf, pSummaryOf, dumps, dumpsAt, dumpsKvs, dumpsItems, quoteStr,
    indentChars, aStr_data, escString_replicate, List.length_append, List.length_replicate,
    show escString "adp".data = "adp".data from by decide,
    show ("adp".data).length = 3 from by decide,
    show escString "query_type".data = "query_type".data from by decide,
    show ("query_type".data).length = 10 from by decide,
    show escString "metadata".data = "metadata".data from by decide,
    show ("metadata".data).length = 8 from by decide,
    show escString "".data = "".data from by decide,
    show ("".data).length = 0 from by decide,
    show escString "x".data = "x".data from by decide,
    show ("x".data).length = 1 from by decide,
    show escString "id".data = "id".data from by decide,
    show ("id".data).length = 2 from by decide,
    show escString "name".data = "name".data from by decide,
    show ("name".data).length = 4 from by decide,
    show escString "team".data = "team".data from by decide,
    show ("team".data).length = 4 from by decide,
    show escString "position".data = "position".data from by decide,
    show ("position".data).length = 8 from by decide,
    show escString "rank".data = "rank".data from by decide,
    show ("rank".data).length = 4 from by decide,
    show escString "bye_week".data = "bye_week".data from by decide,
    show ("bye_week".data).length = 8 from by decide,
    show ((toString (0 : Int)).data).length = 1 from by decide]

theorem dumps_essentialOf_len (n : Nat) : (dumps (essentialOf n)).length = n + 251 := by
  simp [essentialOf, noteText, pSummaryOf, dumps, dumpsAt, dumpsKvs, dumpsItems, quoteStr,
    indentChars, aStr_data, escString_replicate, List.length_append, List.length_replicate,
    show escString "adp".data = "adp".data from by decide,
    show ("adp".data).length = 3 from by decide,
    show escString "query_type".data = "query_type".data from by decide,
    show ("query_type".data).length = 10 from by decide,
    show escString "metadata".data = "metadata".data from by decide,
    show ("metadata".data).length = 8 from by decide,
    show escString "note".data = "note".data from by decide,
    show ("note".data).length = 4 from by decide,
    show escString "".data = "".data from by decide,
    show ("".data).length = 0 from by decide,
    show escString "x".data = "x".data from by decide,
    show ("x".data).length = 1 from by decide,
    show escString "id".data = "id".data from by decide,
    show ("id".data).length = 2 from by decide,
    show escString "name".data = "name".data from by decide,
    show ("name".data).length = 4 from by decide,
    show escString "team".data = "team".data from by decide,
    show ("team".data).length = 4 from by decide,
    show escString "position".data = "position".data from by decide,
    show ("position".data).length = 8 from by decide,
    show escString "rank".data = "rank".data from by decide,
    show ("rank".data).length = 4 from by decide,
    show escString "bye_week".data = "bye_week".data from by decide,
    show ("bye_week".data).length = 8 from by decide,
    show escString "Comprehensive dataset - metadata truncated for space".data = "Comprehensive dataset - metadata truncated for space".data from by decide,
    show ("Comprehensive dataset - metadata truncated for space".data).length = 52 from by decide,
    show ((toString (0 : Int)).data).length = 1 from by decide]

theorem marker_len : truncationMarker.data.length = 59 := by decide



theorem dumps_svOf_len (n : Nat) : (dumps (svOf n)).length = n + 15 := by
  rw [show svOf n = Val.dict [("adp", Val.str (aStr n))] from rfl, dumps_sv_len]

theorem prep_summarizedOf (n : Nat) (h1 : maxContextSize < n + 181)
    (h2 : maxContextSize < n + 251) :
    prepareContext (summarizedOf n) [] [] =
      .ok ((dumps (essentialOf n)).take maxContextSize ++ truncationMarker.data) := by
  have h1d : maxContextSize < (dumps (summarizedOf n)).length := by
    rw [dumps_summarizedOf_len]; exact h1
  have h2d : maxContextSize < (dumps (essentialOf n)).length := by
    rw [dumps_essentialOf_len]; exact h2
  unfold prepareContext
  simp [h1d, h2d, be_summarizedOf, Bind.bind, Except.bind, pure, Except.pure]

theorem contextString_bundleOf (n : Nat) (h1 : maxContextSize < n + 181)
    (h2 : maxContextSize < n + 251) :
    contextString (bundleOf n) [] [] =
      .ok ((dumps (essentialOf n)).take maxContextSize ++ truncationMarker.data) := by
  unfold contextString
  rw [scd_bundleOf]
  simp only [Bind.bind, Except.bind]
  exact prep_summarizedOf n h1 h2

/-- Counterexample to C1 as stated: a concrete bundle whose reduced
summary still serializes over the budget yields a final context string of
50,059 characters — more than the 50,000-character budget (the hard
truncation cuts at the budget and then appends the 59-character marker). -/
theorem context_budget_counterexample :
    (contextString (bundleOf 60000) [] []).map List.length = .ok 50059 ∧
    maxContextSize < 50059 := by
  constructor
  · rw [contextString_bundleOf 60000 (by norm_num [maxContextSize]) (by norm_num [maxContextSize])]
    simp only [Except.map, List.length_append, List.length_take, marker_len,
      dumps_essentialOf_len]
    norm_num [maxContextSize]
  · norm_num [maxContextSize]

/-- Claim C1 (amended): for every context bundle, the serialized context
string placed into the request messages has length at most the
50,000-character budget PLUS the length of the fixed truncation marker
(the hard-truncation fallback appends the marker after cutting at the
budget, so the budget can be exceeded by exactly the marker length). -/
theorem context_budget_amended (d : Val) (mp mt : List String) (r : List Char)
    (h : contextString d mp mt = .ok r) :
    r.length ≤ maxContextSize + truncationMarker.data.length := by
  unfold contextString at h
  cases hs : summarizeContextData d mp mt with
  | error e =>
      rw [hs] at h
      simp [Bind.bind, Except.bind] at h
  | ok sv =>
      rw [hs] at h
      simp only [Bind.bind, Except.bind] at h
      unfold prepareContext at h
      by_cases h1 : maxContextSize < (dumps sv).length
      · rw [if_pos h1] at h
        cases hE : buildEssential sv mp mt with
        | error e =>
            rw [hE] at h
            simp [Bind.bind, Except.bind] at h
        | ok ev =>
            rw [hE] at h
            simp only [Bind.bind, Except.bind] at h
            by_cases h2 : maxContextSize < (dumps ev).length
            · rw [if_pos h2] at h
              simp only [pure, Except.pure, Except.ok.injEq] at h
              subst h
              rw [List.length_append, List.length_take]
              have := Nat.min_le_left maxContextSize (dumps ev).length
              omega
            · rw [if_neg h2] at h
              simp only [pure, Except.pure, Except.ok.injEq] at h
              subst h
              omega
      · rw [if_neg h1] at h
        simp only [pure, Except.pure, Except.ok.injEq] at h
        subst h
        omega

theorem context_budget_amended_witness :
    (dumps (.dict [("query_type", .str "hello"), ("metadata", .dict [])])).length ≤
      maxContextSize + truncationMarker.data.length :=
  context_budget_amended (.dict [("query_type", .str "hello")]) [] [] _ (by decide)

/-- Claim C10: whenever the reduced (escalation-step) summary still
serializes to more than 50,000 characters, the final context string is
exactly the first 50,000 characters of that serialization followed by the
fixed marker; consequently it ends with the marker and its total length is
exactly 50,000 plus the marker length. -/
theorem trunc_marker_exact (sv : Val) (mp mt : List String) (ev : Val)
    (h1 : maxContextSize < (dumps sv).length)
    (hE : buildEssential sv mp mt = .ok ev)
    (h2 : maxContextSize < (dumps ev).length) :
    prepareContext sv mp mt =
      .ok ((dumps ev).take maxContextSize ++ truncationMarker.data) ∧
    truncationMarker.data.IsSuffix
      ((dumps ev).take maxContextSize ++ truncationMarker.data) ∧
    ((dumps ev).take maxContextSize ++ truncationMarker.data).length =
      maxContextSize + truncationMarker.data.length := by
  refine ⟨?_, ⟨(dumps ev).take maxContextSize, rfl⟩, ?_⟩
  · unfold prepareContext
    simp [h1, h2, hE, Bind.bind, Except.bind, pure, Except.pure]
  · rw [List.length_append, List.length_take]
    have : min maxContextSize (dumps ev).length = maxContextSize :=
      Nat.min_eq_left (Nat.le_of_lt h2)
    omega

theorem trunc_marker_exact_witness :
    prepareContext (svOf 60000) [] [] =
      .ok ((dumps (evOf 60000)).take maxContextSize ++ truncationMarker.data) ∧
    truncationMarker.data.IsSuffix
      ((dumps (evOf 60000)).take maxContextSize ++ truncationMarker.data) ∧
    ((dumps (evOf 60000)).take maxContextSize ++ truncationMarker.data).length =
      maxContextSize + truncationMarker.data.length :=
  trunc_marker_exact (svOf 60000) [] [] (evOf 60000)
    (by rw [dumps_svOf_len]; norm_num [maxContextSize])
    (buildEssential_svOf 60000)
    (by rw [dumps_evOf_len]; norm_num [maxContextSize])

end LLm
